import Mathlib

/-!
Verification of nemukerja/static/script.js: notification routing, loading and rendering,
badge, relative time, job detail modal, salary text, form validators, language toggle, modal
translation and notification texts.

A shallow embedding of the client-side script of the job board.  JavaScript
values are a small sum type, functions with side effects return the trace of
the effects they perform, and answers of the backend are explicit arguments.
-/

namespace Nemukerja

/-! ## JavaScript values -/

/-- A JavaScript number as far as this script handles one: `NaN`, or an integer
(identifiers, counts and millisecond time values are integers within the
exactly representable range, where integer arithmetic is exact). -/
inductive JSNumber where
  | nan
  | int (i : Int)
  deriving DecidableEq, Repr

/-- A JavaScript value that a JSON field or a page-supplied global can hold. -/
inductive JSValue where
  | null
  | undefined
  | bool (b : Bool)
  | number (n : JSNumber)
  | str (s : String)
  deriving DecidableEq, Repr

/-- White space and line terminators skipped by `ToNumber` and `parseInt`
(ECMAScript `StrWhiteSpaceChar`). -/
def isStrWhiteSpaceChar (c : Char) : Bool :=
  let n := c.toNat
  n == 0x09 || n == 0x0A || n == 0x0B || n == 0x0C || n == 0x0D || n == 0x20 ||
  n == 0xA0 || n == 0x1680 || (0x2000 ≤ n && n ≤ 0x200A) || n == 0x2028 ||
  n == 0x2029 || n == 0x202F || n == 0x205F || n == 0x3000 || n == 0xFEFF

/-- Removes every character satisfying `p` from the front of a list. -/
def dropLeading (p : Char → Bool) : List Char → List Char
  | [] => []
  | c :: cs => if p c then dropLeading p cs else c :: cs

/-- Trims string white space on both sides (ECMAScript `TrimString`). -/
def trimChars (cs : List Char) : List Char :=
  (dropLeading isStrWhiteSpaceChar (dropLeading isStrWhiteSpaceChar cs).reverse).reverse

/-- Recogniser of `DecimalDigits ExponentPart_opt` tails: after the mantissa
only an optional exponent (`e` or `E`, optional sign, at least one digit) may follow. -/
def isExponentOpt (cs : List Char) : Bool :=
  match cs with
  | [] => true
  | e :: rest =>
    (e == 'e' || e == 'E') &&
      (match rest with
       | [] => false
       | s :: ds =>
         if s == '+' || s == '-' then !ds.isEmpty && ds.all Char.isDigit
         else rest.all Char.isDigit)

/-- Recogniser of ECMAScript `StrUnsignedDecimalLiteral`:
`Infinity`, `digits . digits? exp?`, `. digits exp?`, `digits exp?`. -/
def isStrUnsignedDecimalLiteral (cs : List Char) : Bool :=
  if cs = "Infinity".toList then true
  else
    let intPart := cs.takeWhile Char.isDigit
    let rest := cs.dropWhile Char.isDigit
    match rest with
    | '.' :: afterDot =>
      let fracPart := afterDot.takeWhile Char.isDigit
      let tail := afterDot.dropWhile Char.isDigit
      (!intPart.isEmpty || !fracPart.isEmpty) && isExponentOpt tail
    | _ => !intPart.isEmpty && isExponentOpt rest

/-- Digit test of the non-decimal integer literals. -/
def isRadixDigit (radix : Nat) (c : Char) : Bool :=
  if radix = 2 then c == '0' || c == '1'
  else if radix = 8 then '0' ≤ c && c ≤ '7'
  else if radix = 16 then c.isDigit || ('a' ≤ c && c ≤ 'f') || ('A' ≤ c && c ≤ 'F')
  else c.isDigit

/-- Recogniser of ECMAScript `StrNumericLiteral`: a signed decimal literal or an
unsigned binary, octal or hexadecimal integer literal. -/
def isStrNumericLiteral (cs : List Char) : Bool :=
  match cs with
  | '0' :: 'x' :: ds => !ds.isEmpty && ds.all (isRadixDigit 16)
  | '0' :: 'X' :: ds => !ds.isEmpty && ds.all (isRadixDigit 16)
  | '0' :: 'o' :: ds => !ds.isEmpty && ds.all (isRadixDigit 8)
  | '0' :: 'O' :: ds => !ds.isEmpty && ds.all (isRadixDigit 8)
  | '0' :: 'b' :: ds => !ds.isEmpty && ds.all (isRadixDigit 2)
  | '0' :: 'B' :: ds => !ds.isEmpty && ds.all (isRadixDigit 2)
  | '+' :: ds => isStrUnsignedDecimalLiteral ds
  | '-' :: ds => isStrUnsignedDecimalLiteral ds
  | _ => isStrUnsignedDecimalLiteral cs

/-- Whether `ToNumber` of a string is `NaN`: the trimmed string is neither empty
(which converts to 0) nor a numeric literal. -/
def stringIsNaN (s : String) : Bool :=
  let t := trimChars s.toList
  !t.isEmpty && !isStrNumericLiteral t

/-- The global `isNaN(value)`: `ToNumber(value)` is `NaN`.  `null` converts to 0,
booleans to 0 or 1, `undefined` to `NaN`. -/
def isNaN : JSValue → Bool
  | .null => false
  | .undefined => true
  | .bool _ => false
  | .number .nan => true
  | .number (.int _) => false
  | .str s => stringIsNaN s

/-- JavaScript truthiness (`ToBoolean`). -/
def toBoolean : JSValue → Bool
  | .null => false
  | .undefined => false
  | .bool b => b
  | .number .nan => false
  | .number (.int i) => i != 0
  | .str s => s != ""

/-- Text of a number inside a template literal: decimal digits for an integer.
That is the text of the platform for an integer of magnitude below 10^21; from
10^21 on the platform writes the exponent form, which `integerText` gives. -/
def numberToString : JSNumber → String
  | .nan => "NaN"
  | .int i => toString i

/-- Text of a value inside a template literal (`ToString`). -/
def templateString : JSValue → String
  | .null => "null"
  | .undefined => "undefined"
  | .bool true => "true"
  | .bool false => "false"
  | .number n => numberToString n
  | .str s => s

/-- Text of an integer-valued number inside a template literal over the whole
range (`Number::toString`).  Below 10^21 in magnitude it is the decimal digits,
with no exponent.  From 10^21 on it is the exponent form: the first digit, then,
if more significant digits follow, a point and the digits up to the last one that
is not 0, then `e+` and the decimal exponent; 10^21 is `1e+21`.  The digits are
those of `i` itself.  They are the digits of the platform for a safe integer
(magnitude up to 2^53) and for an integer with at most 15 significant digits
such as 10^21; for another integer that the platform holds it writes the shortest
digits that read back as the same number, with zeros after them below 10^21,
so that `parseInt` reads back the same number from either text. -/
def integerText (i : Int) : String :=
  if i.natAbs < 10 ^ 21 then toString i
  else
    let digits := (toString i.natAbs).toList
    let significant := (digits.reverse.dropWhile (fun c => c == '0')).reverse
    let mantissa :=
      match significant with
      | [] => ""
      | [d] => String.singleton d
      | d :: rest => String.singleton d ++ "." ++ String.mk rest
    (if i < 0 then "-" else "") ++ mantissa ++ "e+" ++ toString (digits.length - 1)

/-- Text of a value inside a template literal (`ToString`), with the text of an
integer over the whole range; it is `templateString` except on the integers from
10^21 on. -/
def valueText : JSValue → String
  | .number (.int i) => integerText i
  | value => templateString value

/-! ## Effects and page globals -/

/-- An observable action of the script. -/
inductive Effect where
  | consoleLog (msg : String)
  | consoleError (msg : String)
  | setLocationHref (href : String)
  | showJobDetail (jobId : JSValue)
  | fetch (method : String) (url : String)
  | alert (msg : String)
  deriving DecidableEq, Repr

/-- The flags the hosting page supplies on `window`; `none` is an unset role. -/
structure Window where
  currentUserRole : Option String
  isAuthenticated : JSValue
  deriving DecidableEq, Repr

/-- The object `handleNotificationClick` receives.  The click listeners build it
as `{id, related_id, type}` from the attributes of the clicked item, so `id` and
`type` are attribute texts (`none` is `null`, a missing attribute). -/
structure ClickedNotification where
  id : Option String
  related_id : JSValue
  type : Option String
  deriving DecidableEq, Repr

/-- How the request of `fetchJobIdFromApplication` ends: `fetch` rejects, or a
response arrives with its `ok` flag and, when the body is a JSON object, the
value of its `job_id` field (`undefined` when the field is absent); `none` is a
body on which `response.json()` or the field access throws. -/
inductive LookupOutcome where
  | transportError
  | response (ok : Bool) (job_id : Option JSValue)
  deriving DecidableEq, Repr

/-! ## Notification click router (script.js 78-145) -/

/-- Model of `fetchJobIdFromApplication(applicationId)`: the effects, and the
value the promise resolves to. -/
def fetchJobIdFromApplication (outcome : LookupOutcome) (applicationId : JSValue) :
    List Effect × JSValue :=
  let request := Effect.fetch "GET" ("/api/get_job_id/" ++ templateString applicationId)
  match outcome with
  | .transportError => ([request, .consoleError "Error fetching job ID:"], .null)
  | .response false _ => ([request], .null)
  | .response true none => ([request, .consoleError "Error fetching job ID:"], .null)
  | .response true (some jobId) => ([request], jobId)

/-- Model of `handleNotificationClick(notification)`: the trace of effects. -/
def handleNotificationClick (window : Window) (lookup : LookupOutcome)
    (notification : ClickedNotification) : List Effect :=
  let currentUserRole := window.currentUserRole.getD ""
  let relatedId := notification.related_id
  if relatedId = .null ∨ relatedId = .number (.int 0) ∨ isNaN relatedId = true then
    [.consoleLog "Notifikasi tanpa ID terkait/Job dihapus, tidak ada navigasi."]
  else if notification.type = some "job_posted" then
    if currentUserRole = "applicant" then [.showJobDetail relatedId]
    else [.setLocationHref "/dashboard"]
  else if notification.type = some "application_received" then
    if currentUserRole = "company" then
      [.setLocationHref ("/company/application/" ++ templateString relatedId)]
    else [.setLocationHref "/dashboard"]
  else if notification.type = some "application_status" then
    if currentUserRole = "applicant" then
      let (effects, jobId) := fetchJobIdFromApplication lookup relatedId
      if toBoolean jobId then effects ++ [.showJobDetail jobId]
      else effects ++ [.alert "Job terkait sudah dihapus oleh perusahaan."]
    else [.setLocationHref "/dashboard"]
  else [.setLocationHref "/dashboard"]

/-! ## Click listeners of the notification lists (script.js 152-167, 839-880) -/

/-- Value of a digit of `parseInt` in its radix. -/
def digitValue (c : Char) : Nat :=
  if c.isDigit then c.toNat - '0'.toNat
  else if 'a' ≤ c ∧ c ≤ 'f' then c.toNat - 'a'.toNat + 10
  else c.toNat - 'A'.toNat + 10

/-- The global `parseInt(string)` without a radix argument: leading white space
is skipped, a sign and a `0x` mark are read, and the longest run of digits is
converted; no digit gives `NaN`. -/
def parseInt (s : String) : JSNumber :=
  let trimmed := dropLeading isStrWhiteSpaceChar s.toList
  let negative := trimmed.head? = some '-'
  let unsigned := match trimmed with
    | '+' :: rest => rest
    | '-' :: rest => rest
    | _ => trimmed
  let radix : Nat := match unsigned with
    | '0' :: 'x' :: _ => 16
    | '0' :: 'X' :: _ => 16
    | _ => 10
  let body := match unsigned with
    | '0' :: 'x' :: rest => rest
    | '0' :: 'X' :: rest => rest
    | _ => unsigned
  let digits := body.takeWhile (isRadixDigit radix)
  if digits.isEmpty then .nan
  else
    let value : Nat := digits.foldl (fun acc c => acc * radix + digitValue c) 0
    .int (if negative then -(value : Int) else (value : Int))

/-- An element of the page as the click listeners see it. -/
structure Element where
  classList : List String
  attributes : List (String × String)
  deriving DecidableEq, Repr

/-- The DOM call `el.getAttribute(name)`; `none` is `null`. -/
def Element.getAttribute (el : Element) (name : String) : Option String :=
  (el.attributes.find? (fun a => a.1 == name)).map (fun a => a.2)

/-- Model of `markNotificationRead(notificationId, scope)` up to its return: the
POST request it issues.  (Its promise callbacks run later and only reload the
two lists.) -/
def markNotificationRead (notificationId : Option String) (_scope : String) : List Effect :=
  [.fetch "POST" ("/notifications/read/" ++ notificationId.getD "null")]

/-- The loop `while (target && !target.classList.contains('notification-item'))
target = target.parentNode` over the clicked element followed by its ancestor
elements.  Above the root element the parent is the document, which has no
`classList`, so leaving the elements throws a `TypeError`. -/
def findNotificationItem : List Element → Except String Element
  | [] => .error "TypeError"
  | el :: ancestors =>
    if el.classList.contains "notification-item" then .ok el
    else findNotificationItem ancestors

/-- Model of the click listener of `notificationList` (scope `""`) and of
`notificationListMobile` (scope `"Mobile"`); `path` is the event target followed
by its ancestor elements. -/
def notificationListClick (scope : String) (window : Window) (lookup : LookupOutcome)
    (path : List Element) : Except String (List Effect) :=
  match findNotificationItem path with
  | .error e => .error e
  | .ok target =>
    let notificationId := target.getAttribute "data-notification-id"
    let relatedId := target.getAttribute "data-related-id"
    let notificationType := target.getAttribute "data-notification-type"
    .ok (markNotificationRead notificationId scope ++
      handleNotificationClick window lookup
        { id := notificationId
          related_id := match relatedId with
            | some r => if r ≠ "" then .number (parseInt r) else .null
            | none => .null
          type := notificationType })

/-! ## Notification badge (script.js 211-227) -/

/-- A notification as fetched from `/notifications`. -/
structure Notification where
  id : Int
  type : String
  related_id : JSValue
  title : String
  message : String
  is_read : Bool
  created_at : String
  deriving DecidableEq, Repr

/-- The badge element: its text and its `style.display`. -/
structure Badge where
  textContent : String
  display : String
  deriving DecidableEq, Repr

/-- The two elements of one surface that `updateNotificationUI` looks up by id:
the `innerHTML` of `notificationList<scope>` and the badge
`notificationBadge<scope>`; `none` is an element missing from the page. -/
structure Surface where
  notificationList : Option String
  notificationBadge : Option Badge
  deriving DecidableEq, Repr

/-- Model of `updateNotificationUI(notifications, scope)` on the surface of that
scope.  The markup of the list is the argument `renderList`; the closing call of
`toggleLang` changes class lists only and leaves the badge as it is. -/
def updateNotificationUI (renderList : List Notification → String)
    (notifications : List Notification) (surface : Surface) : Surface :=
  match surface.notificationList, surface.notificationBadge with
  | some _, some notificationBadge =>
    let unreadCount := (notifications.filter (fun n => !n.is_read)).length
    let badge : Badge :=
      if unreadCount > 0 then
        { textContent := toString unreadCount, display := "block" }
      else
        { notificationBadge with display := "none" }
    { notificationList := some (renderList notifications), notificationBadge := some badge }
  | _, _ => surface

/-- What a badge shows to the user: its text, unless it is hidden. -/
def Badge.shown (b : Badge) : Option String :=
  if b.display = "none" then none else some b.textContent

/-! ## Relative time (script.js 58-71) -/

/-- The subtraction `now - date` of two time values. -/
def JSNumber.subFrom (now : Int) : JSNumber → JSNumber
  | .nan => .nan
  | .int t => .int (now - t)

/-- The expression `Math.floor(x / k)` for a positive integer `k`. -/
def JSNumber.floorDiv (k : Int) : JSNumber → JSNumber
  | .nan => .nan
  | .int x => .int (x / k)

/-- The comparison `x < k`, false when `x` is `NaN`. -/
def JSNumber.lt (x : JSNumber) (k : Int) : Bool :=
  match x with
  | .nan => false
  | .int i => i < k

/-- Model of `getTimeAgo(dateString)`.  `date` is the time value of
`new Date(dateString)` in milliseconds (`NaN` for an unreadable date), `now` the
time value of `new Date()`, and `localeDateString` the text that
`date.toLocaleDateString()` gives. -/
def getTimeAgo (date : JSNumber) (now : Int) (localeDateString : String) : String :=
  let diffMs := JSNumber.subFrom now date
  let diffMins := diffMs.floorDiv 60000
  let diffHours := diffMs.floorDiv 3600000
  let diffDays := diffMs.floorDiv 86400000
  if diffMins.lt 1 then "Just now"
  else if diffMins.lt 60 then numberToString diffMins ++ "m ago"
  else if diffHours.lt 24 then numberToString diffHours ++ "h ago"
  else if diffDays.lt 7 then numberToString diffDays ++ "d ago"
  else localeDateString

/-! ## Apply button of the job detail modal (script.js 524-557) -/

/-- A job as fetched from `/job/<id>`. -/
structure Job where
  id : Int
  title : String
  company : String
  company_id : Int
  location : String
  salary_min : JSValue
  salary_max : JSValue
  slots : Int
  applied_count : Int
  is_open : Bool
  qualifications : String
  description : String
  deriving DecidableEq, Repr

/-- Markup of the disabled button of a closed job. -/
def jobClosedButton : String :=
  "<button disabled class=\"btn btn-secondary\">\n                        <i class=\"fas fa-times-circle me-1\"></i> Job Closed\n                    </button>"

/-- Markup of the disabled button of a job whose slots are filled. -/
def slotsFullButton : String :=
  "<button disabled class=\"btn btn-warning\">\n                        <i class=\"fas fa-exclamation-triangle me-1\"></i> Slots Full\n                    </button>"

/-- Markup of the active apply link of a job. -/
def applyNowLink (jobId : Int) : String :=
  "<a href=\"/apply/" ++ toString jobId ++ "\" class=\"btn btn-primary\">\n                        <i class=\"fas fa-paper-plane me-1\"></i>\n                        <span data-i18n=\"modal_apply_now_en\">Apply Now</span>\n                        <span data-i18n=\"modal_apply_now_id\" class=\"hidden\">Lamar Sekarang</span>\n                    </a>"

/-- Markup of the link that sends a visitor to the login page. -/
def loginToApplyLink : String :=
  "<a href=\"/login\" class=\"btn btn-primary\">\n                        <i class=\"fas fa-sign-in-alt me-1\"></i>\n                        <span data-i18n=\"modal_login_to_apply_en\">Login to Apply</span>\n                        <span data-i18n=\"modal_login_to_apply_id\" class=\"hidden\">Masuk untuk Lamar</span>\n                    </a>"

/-- Model of the value `applyButton` that `window.showJobDetail` writes into
`applyButtonContainer` for a fetched job. -/
def applyButton (window : Window) (job : Job) : String :=
  let isAuthenticated : Bool := window.isAuthenticated = .bool true
  let userRole := window.currentUserRole
  let isFull : Bool := job.applied_count ≥ job.slots
  let isClosed : Bool := !job.is_open
  if isClosed then jobClosedButton
  else if isFull then slotsFullButton
  else if isAuthenticated && userRole = some "applicant" then applyNowLink job.id
  else if !isAuthenticated then loginToApplyLink
  else ""

/-! ## Currency and salary text (script.js 9-19, 411-441) -/

/-- Model of `formatCurrency(number)`; `none` is the returned `null`.  The text
that `new Intl.NumberFormat('id-ID', ...).format(number)` gives is a function of
the platform and is the argument `format`. -/
def formatCurrency (format : JSValue → String) (number : JSValue) : Option String :=
  if isNaN number = true ∨ number = .number (.int 0) then none
  else some (format number)

/-- Truthiness of a value that is `null` or a string. -/
def stringTruthy : Option String → Bool
  | none => false
  | some s => s != ""

/-- Text of a value that is `null` or a string inside a template literal. -/
def stringTemplate : Option String → String
  | none => "null"
  | some s => s

/-- Model of the salary logic of `window.showJobDetail`: the pair
`(salaryTextEn, salaryTextId)`. -/
def salaryText (format : JSValue → String) (job : Job) : String × String :=
  let minSalary := formatCurrency format job.salary_min
  let maxSalary := formatCurrency format job.salary_max
  if stringTruthy minSalary && stringTruthy maxSalary then
    (stringTemplate minSalary ++ " - " ++ stringTemplate maxSalary,
      stringTemplate minSalary ++ " - " ++ stringTemplate maxSalary)
  else if stringTruthy minSalary then
    ("From " ++ stringTemplate minSalary, "Mulai dari " ++ stringTemplate minSalary)
  else if stringTruthy maxSalary then
    ("Up to " ++ stringTemplate maxSalary, "Hingga " ++ stringTemplate maxSalary)
  else ("Salary not disclosed", "Gaji tidak ditampilkan")

/-- Markup `salaryHtml` of the salary line of the modal. -/
def salaryHtml (salaryTextEn salaryTextId : String) : String :=
  "\n" ++
  "                <div class=\"d-flex align-items-center mb-3\">\n" ++
  "                    <i class=\"fas fa-money-bill-wave text-success me-3\" style=\"width: 20px;\"></i>\n" ++
  "                    <strong class=\"me-2\">\n" ++
  "                        <span data-i18n=\"modal_salary_en\">Salary:</span>\n" ++
  "                        <span data-i18n=\"modal_salary_id\" class=\"hidden\">Gaji:</span>\n" ++
  "                    </strong>\n" ++
  "                    <span>\n" ++
  "                        <span data-i18n=\"modal_salary_value_en\">" ++
  salaryTextEn ++
  "</span>\n" ++
  "                        <span data-i18n=\"modal_salary_value_id\" class=\"hidden\">" ++
  salaryTextId ++
  "</span>\n" ++
  "                    </span>\n" ++
  "                </div>\n" ++
  "            "

/-- Inserts a dot after every third digit of a reversed digit list; `count` is
the number of digits already written in the current group. -/
def groupReversedDigits : Nat → List Char → List Char
  | _, [] => []
  | count, d :: rest =>
    if count = 3 then '.' :: d :: groupReversedDigits 1 rest
    else d :: groupReversedDigits (count + 1) rest

/-- Modelled from the spec: the text of `Intl.NumberFormat('id-ID', currency IDR,
no fraction digits)` for an amount, which is not part of the script.  The spec
gives `Rp5.000.000` for 5000000: `Rp` followed by the digits in groups of three
separated by dots.  Values that are not integers are formatted like 0.  The text
of a platform with the current locale data has a no-break space after `Rp` and
is `idrNumberFormat`. -/
def rupiahFormat : JSValue → String
  | .number (.int i) =>
    (if i < 0 then "-Rp" else "Rp") ++
      String.mk (groupReversedDigits 0 (toString i.natAbs).toList.reverse).reverse
  | _ => "Rp0"

/-- Model of the text that `new Intl.NumberFormat('id-ID', ...).format(number)`
gives with the options of `formatCurrency` on a platform with the current locale
data, for an amount that is an integer: `Rp`, a no-break space (U+00A0), and the
digits in groups of three separated by dots, after a minus sign for a negative
amount.  `null` converts to the number 0 and is formatted as 0.  The values that
are neither an integer nor `null` are outside this model and get the text of 0. -/
def idrNumberFormat : JSValue → String
  | .number (.int i) =>
    (if i < 0 then "-Rp\u00a0" else "Rp\u00a0") ++
      String.mk (groupReversedDigits 0 (toString i.natAbs).toList.reverse).reverse
  | _ => "Rp\u00a00"

/-! ## Job detail modal (script.js 386-574) -/

/-- The expression `localStorage.getItem('nk_lang') || 'en'`; `none` is a key
that is not stored. -/
def currentLang (nk_lang : Option String) : String :=
  match nk_lang with
  | some lang => if lang = "" then "en" else lang
  | none => "en"

/-- How the request `GET /job/<id>` ends: `fetch` rejects, or a response arrives
with its status and its body as a job (`none` when `response.json()` rejects). -/
inductive JobFetchOutcome where
  | transportError
  | response (status : Nat) (job : Option Job)
  deriving DecidableEq, Repr

/-- Which of the elements that `window.showJobDetail` looks up exist in the page. -/
structure ModalElements where
  jobDetailTitle : Bool
  jobDetailBody : Bool
  applyButtonContainer : Bool
  jobDetailModal : Bool
  deriving DecidableEq, Repr

/-- What `window.showJobDetail` does: its effects, the `innerHTML` it writes to
each of the three elements (`none` when it writes nothing), the language it
passes to `translateModalContent`, and whether it shows the modal. -/
structure JobDetailView where
  effects : List Effect
  jobDetailTitle : Option String
  jobDetailBody : Option String
  applyButtonContainer : Option String
  translated : Option String
  modalShown : Bool
  deriving DecidableEq, Repr

/-- Markup written to `jobDetailTitle`. -/
def jobDetailTitleHtml (job : Job) : String :=
  "\n" ++
  "                    <i class=\"fas fa-briefcase me-3\"></i>\n" ++
  "                    <span id=\"modalJobTitleText\">" ++
  job.title ++
  "</span>\n" ++
  "                "

/-- Markup written to `jobDetailBody`. -/
def jobDetailBodyHtml (job : Job) (salaryHtml : String) : String :=
  "\n" ++
  "                    <div class=\"vstack gap-3\">\n" ++
  "                        <div class=\"d-flex align-items-center mb-3\">\n" ++
  "                            <i class=\"fas fa-building text-primary me-3\" style=\"width: 20px;\"></i>\n" ++
  "                            <strong class=\"me-2\">\n" ++
  "                                <span data-i18n=\"modal_company_en\">Company:</span>\n" ++
  "                                <span data-i18n=\"modal_company_id\" class=\"hidden\">Perusahaan:</span>\n" ++
  "                            </strong>\n" ++
  "                            <span>" ++
  job.company ++
  "</span>\n" ++
  "                        </div>\n" ++
  "\n" ++
  "                        <div class=\"d-flex align-items-center mb-3\">\n" ++
  "                            <i class=\"fas fa-building text-primary me-3\" style=\"width: 20px;\"></i>\n" ++
  "                            <strong class=\"me-2\">\n" ++
  "                                <span data-i18n=\"modal_company_en\">Company:</span>\n" ++
  "                                <span data-i18n=\"modal_company_id\" class=\"hidden\">Perusahaan:</span>\n" ++
  "                            </strong>\n" ++
  "                            <span>\n" ++
  "                                <a href=\"/company/" ++
  (toString job.company_id) ++
  "\" class=\"text-decoration-none\">\n" ++
  "                                    " ++
  job.company ++
  "\n" ++
  "                                </a>\n" ++
  "                            </span>\n" ++
  "                        </div>\n" ++
  "                        \n" ++
  "                        " ++
  salaryHtml ++
  "\n" ++
  "\n" ++
  "                        <div class=\"d-flex align-items-center mb-3\">\n" ++
  "                            <i class=\"fas fa-users text-info me-3\" style=\"width: 20px;\"></i>\n" ++
  "                            <strong class=\"me-2\">\n" ++
  "                                <span data-i18n=\"modal_available_slots_en\">Available Slots:</span>\n" ++
  "                                <span data-i18n=\"modal_available_slots_id\" class=\"hidden\">Kuota Tersedia:</span>\n" ++
  "                            </strong>\n" ++
  "                            <span>" ++
  (toString job.slots) ++
  "</span>\n" ++
  "                        </div>\n" ++
  "                        <div class=\"d-flex align-items-center mb-3\">\n" ++
  "                            <i class=\"fas fa-user-check text-warning me-3\" style=\"width: 20px;\"></i>\n" ++
  "                            <strong class=\"me-2\">\n" ++
  "                                <span data-i18n=\"modal_current_applicants_en\">Current Applicants:</span>\n" ++
  "                                <span data-i18n=\"modal_current_applicants_id\" class=\"hidden\">Pelamar Saat Ini:</span>\n" ++
  "                            </strong>\n" ++
  "                            <span>" ++
  (toString job.applied_count) ++
  "</span>\n" ++
  "                        </div>\n" ++
  "                    </div>\n" ++
  "                    \n" ++
  "                    <hr class=\"my-4\">\n" ++
  "                    \n" ++
  "                    <div>\n" ++
  "                        <h5 class=\"fw-bold text-dark mb-3 d-flex align-items-center\">\n" ++
  "                            <i class=\"fas fa-graduation-cap text-dark me-2\"></i>\n" ++
  "                            <span data-i18n=\"modal_qualifications_en\">Qualifications</span>\n" ++
  "                            <span data-i18n=\"modal_qualifications_id\" class=\"hidden\">Kualifikasi</span>\n" ++
  "                        </h5>\n" ++
  "                        <div class=\"card bg-light border-0\">\n" ++
  "                            <div class=\"card-body p-3\">\n" ++
  "                                <p class=\"mb-0\" style=\"white-space: pre-wrap;\">" ++
  job.qualifications ++
  "</p>\n" ++
  "                            </div>\n" ++
  "                        </div>\n" ++
  "                    </div>\n" ++
  "                    \n" ++
  "                    <hr class=\"my-4\">\n" ++
  "                    \n" ++
  "                    <div>\n" ++
  "                        <h5 class=\"fw-bold text-dark mb-3 d-flex align-items-center\">\n" ++
  "                            <i class=\"fas fa-tasks text-dark me-2\"></i>\n" ++
  "                            <span data-i18n=\"modal_job_description_en\">Job Description</span>\n" ++
  "                            <span data-i18n=\"modal_job_description_id\" class=\"hidden\">Deskripsi Pekerjaan</span>\n" ++
  "                        </h5>\n" ++
  "                        <div class=\"card bg-light border-0\">\n" ++
  "                            <div class=\"card-body p-3\">\n" ++
  "                                <p class=\"mb-0\" style=\"white-space: pre-wrap;\">" ++
  job.description ++
  "</p>\n" ++
  "                            </div>\n" ++
  "                        </div>\n" ++
  "                    </div>\n" ++
  "                "

/-- Model of `window.showJobDetail(jobId)`.  A response is `ok` when its status
is between 200 and 299. -/
def showJobDetail (format : JSValue → String) (window : Window) (nk_lang : Option String)
    (page : ModalElements) (outcome : JobFetchOutcome) (jobId : JSValue) : JobDetailView :=
  let request := Effect.fetch "GET" ("/job/" ++ templateString jobId)
  let failed (effects : List Effect) : JobDetailView :=
    { effects := request :: effects, jobDetailTitle := none, jobDetailBody := none,
      applyButtonContainer := none, translated := none, modalShown := false }
  let generic : List Effect :=
    [.consoleError "Error loading job details:", .alert "Error loading job details"]
  match outcome with
  | .transportError => failed generic
  | .response status body =>
    if status = 404 then failed [.alert "Pekerjaan terkait telah dihapus oleh perusahaan."]
    else if ¬ (200 ≤ status ∧ status ≤ 299) then failed generic
    else
      match body with
      | none => failed generic
      | some job =>
        let texts := salaryText format job
        { effects := [request]
          jobDetailTitle := if page.jobDetailTitle then some (jobDetailTitleHtml job) else none
          jobDetailBody :=
            if page.jobDetailBody then
              some (jobDetailBodyHtml job (salaryHtml texts.1 texts.2))
            else none
          applyButtonContainer :=
            if page.applyButtonContainer then some (applyButton window job) else none
          translated := if page.jobDetailModal then some (currentLang nk_lang) else none
          modalShown := page.jobDetailModal }

/-! ## Form validators (script.js 1024-1110) -/

/-- The property `length` of a string: its number of UTF-16 code units. -/
def jsLength (s : String) : Nat :=
  (s.toList.map (fun c => if c.toNat < 0x10000 then 1 else 2)).sum

/-- The method `trim()` of a string. -/
def jsTrim (s : String) : String :=
  String.mk (trimChars s.toList)

/-- The method `includes(part)` of a string. -/
def includes (s part : String) : Bool :=
  decide (part.toList <:+: s.toList)

/-- A file chosen in a file input: its declared type and its size in bytes. -/
structure File where
  type : String
  size : Nat
  deriving DecidableEq, Repr

/-- What a submit listener does to one submit event: whether it calls
`preventDefault`, the argument of its `alert` call and of its `confirm` call
(`none` when it makes no such call), and whether it ends by throwing a
`TypeError`.  The submission proceeds when the default is not prevented. -/
structure SubmitOutcome where
  defaultPrevented : Bool
  alert : Option JSValue
  confirm : Option JSValue
  typeError : Bool
  deriving DecidableEq, Repr

/-- The size limit `10 * 1024 * 1024` of a CV file. -/
def maxSize : Nat := 10 * 1024 * 1024

/-- Model of the submit listener of `apply-form`.  `coverLetter` is the value of
`cover_letter`, `cvFile` is `files[0]` of `cv_file` (`none` is `undefined`), and
`confirmAnswer` is what the user answers if `confirm` is called. -/
def applyFormSubmit (coverLetter : String) (cvFile : Option File) (confirmAnswer : Bool) :
    SubmitOutcome :=
  let afterLetter : Bool × String :=
    if jsLength (jsTrim coverLetter) < 50 then
      (false, "Please write a more detailed cover letter (at least 50 characters).")
    else (true, "")
  let afterFile : Bool × String :=
    match cvFile with
    | none => (false, "Please upload your CV file.")
    | some file =>
      if file.size > maxSize then
        (false, "File size must be less than 10MB. Your file is too large.")
      else if !includes file.type "pdf" then (false, "Only PDF files are allowed.")
      else afterLetter
  let isValid := afterFile.1
  let errorMessage := afterFile.2
  if !isValid then
    { defaultPrevented := true, alert := some (.str errorMessage), confirm := none,
      typeError := false }
  else
    { defaultPrevented := !confirmAnswer, alert := none,
      confirm := some (.str
        "Are you sure you want to submit your application? You cannot edit it after submission."),
      typeError := false }

/-- The reading of the rule order that the specification states for a blocked
apply form: the message of the first violated rule among cover letter of at
least 50 trimmed characters, CV file attached, file is a PDF by declared type,
file of at most 10 MB; `none` when no rule is violated. -/
def firstViolatedRuleMessage (coverLetter : String) (cvFile : Option File) : Option String :=
  if jsLength (jsTrim coverLetter) < 50 then
    some "Please write a more detailed cover letter (at least 50 characters)."
  else
    match cvFile with
    | none => some "Please upload your CV file."
    | some file =>
      if !includes file.type "pdf" then some "Only PDF files are allowed."
      else if file.size > maxSize then
        some "File size must be less than 10MB. Your file is too large."
      else none

/-- Model of the change listener of `cv_file` (script.js 1004-1019), which runs
when the user picks a file: the argument of its `alert` call, `none` when it makes
no such call.  `file` is `this.files[0]`.  Whenever it alerts it also empties
the input (`this.value = ''`). -/
def cvFileChange (file : Option File) : Option String :=
  match file with
  | none => none
  | some file =>
    if !includes file.type "pdf" then some "Only PDF files are allowed."
    else if file.size > maxSize then
      some "File size must be less than 10MB. Your file is too large."
    else none

/-- The texts of one language in the table `messages` of the add-job listener. -/
structure Messages where
  fill_fields : String
  description_short : String
  confirm : String
  deriving DecidableEq, Repr

/-- The names that every object literal inherits from `Object.prototype`. -/
def objectPrototypeKeys : List String :=
  ["constructor", "__defineGetter__", "__defineSetter__", "hasOwnProperty",
    "__lookupGetter__", "__lookupSetter__", "isPrototypeOf", "propertyIsEnumerable",
    "toString", "valueOf", "__proto__", "toLocaleString"]

/-- The value of `messages[currentLang]`: the table of a language, an inherited
member (whose fields read as `undefined`), or `undefined`. -/
inductive MessagesEntry where
  | own (m : Messages)
  | inherited
  | missing
  deriving DecidableEq, Repr

/-- The lookup `messages[currentLang]` in the add-job listener. -/
def messages (lang : String) : MessagesEntry :=
  if lang = "en" then
    .own { fill_fields := "Please fill in all required fields."
           description_short :=
             "Please provide a more detailed job description (at least 20 characters)."
           confirm := "Are you sure you want to post this job?" }
  else if lang = "id" then
    .own { fill_fields := "Harap isi semua bidang yang wajib diisi."
           description_short :=
             "Harap berikan deskripsi pekerjaan yang lebih detail (minimal 20 karakter)."
           confirm := "Apakah Anda yakin ingin memposting pekerjaan ini?" }
  else if lang ∈ objectPrototypeKeys then .inherited
  else .missing

/-- One guarded step of the add-job listener: reading a field of
`messages[currentLang]` throws when the entry is `undefined`; otherwise `act` is
run on the text read. -/
def withMessage (entry : MessagesEntry) (field : Messages → String) (prevented : Bool)
    (act : JSValue → SubmitOutcome) : SubmitOutcome :=
  match entry with
  | .own m => act (.str (field m))
  | .inherited => act .undefined
  | .missing =>
    { defaultPrevented := prevented, alert := none, confirm := none, typeError := true }

/-- Model of the submit listener of the add-job form.  `nk_lang` is the stored
language, the three strings are the values of `title`, `location` and
`description`, and `confirmAnswer` is what the user answers to `confirm`. -/
def addJobFormSubmit (nk_lang : Option String) (title location description : String)
    (confirmAnswer : Bool) : SubmitOutcome :=
  let entry := messages (currentLang nk_lang)
  if jsTrim title = "" ∨ jsTrim location = "" ∨ jsTrim description = "" then
    withMessage entry Messages.fill_fields true fun text =>
      { defaultPrevented := true, alert := some text, confirm := none, typeError := false }
  else if jsLength (jsTrim description) < 20 then
    withMessage entry Messages.description_short true fun text =>
      { defaultPrevented := true, alert := some text, confirm := none, typeError := false }
  else
    withMessage entry Messages.confirm false fun text =>
      { defaultPrevented := !confirmAnswer, alert := none, confirm := some text,
        typeError := false }

/-! ## Language toggle (script.js 662-782) -/

/-- The method `endsWith(suffix)` of a string. -/
def endsWith (s suffix : String) : Bool :=
  decide (suffix.toList <:+ s.toList)

/-- The call `classList.remove(...tokens)`. -/
def classListRemove (tokens : List String) (classList : List String) : List String :=
  classList.filter (fun c => !tokens.contains c)

/-- The call `classList.add(...tokens)`: each token that is absent is appended. -/
def classListAdd (tokens : List String) (classList : List String) : List String :=
  tokens.foldl (fun classes token => if token ∈ classes then classes else classes ++ [token])
    classList

/-- The callback that `window.toggleLang` runs on each element selected by
`[data-i18n]` (script.js 663-681); an element without the attribute is not
selected and stays as it is. -/
def toggleLangElement (lang : String) (el : Element) : Element :=
  match el.getAttribute "data-i18n" with
  | none => el
  | some id =>
    if endsWith id "_en" || endsWith id "_id" then
      if lang = "en" then
        if endsWith id "_en" then
          { el with classList := classListRemove ["d-none", "hidden"] el.classList }
        else if endsWith id "_id" then
          { el with classList := classListAdd ["d-none", "hidden"] el.classList }
        else el
      else if lang = "id" then
        if endsWith id "_id" then
          { el with classList := classListRemove ["d-none", "hidden"] el.classList }
        else if endsWith id "_en" then
          { el with classList := classListAdd ["d-none", "hidden"] el.classList }
        else el
      else el
    else el

/-- The first statement of `window.toggleLang` (script.js 663-681): the
visibility step over the elements of the document. -/
def toggleLangVisibility (lang : String) (elements : List Element) : List Element :=
  elements.map (toggleLangElement lang)

/-- The state of the page that `window.toggleLang` and the click listener of a
language option act on: the elements of the document in document order, the
attribute `lang` of the root element, the item `nk_lang` of `localStorage`
(`none` when it is not stored) and the custom events dispatched so far, each
with its name and its `detail.lang`. -/
structure Page where
  elements : List Element
  documentLang : String
  nk_lang : Option String
  dispatched : List (String × String)
  deriving DecidableEq, Repr

/-- Whether the text of the selector `.lang-option[data-lang="<lang>"]` is the
intended one: `lang` holds no double quote, backslash or line break, which
would end or escape the quoted value. -/
def selectorSafe (lang : String) : Bool :=
  lang.toList.all fun c =>
    c.toNat != 0x22 && c.toNat != 0x5C && c.toNat != 0x0A && c.toNat != 0x0D && c.toNat != 0x0C

/-- Whether an element matches `.lang-option[data-lang="<lang>"]`. -/
def isLangOption (lang : String) (el : Element) : Bool :=
  el.classList.contains "lang-option" && el.getAttribute "data-lang" == some lang

/-- The callback `option.classList.remove('active')`, run on the elements that
`.lang-option` selects. -/
def clearActiveElement (el : Element) : Element :=
  if el.classList.contains "lang-option" then
    { el with classList := classListRemove ["active"] el.classList }
  else el

/-- The step `option.classList.remove('active')` on every `.lang-option`. -/
def clearActive (elements : List Element) : List Element :=
  elements.map clearActiveElement

/-- The step that adds `active` to the element that
`document.querySelector('.lang-option[data-lang="<lang>"]')` returns, the first
match in document order. -/
def markActive (lang : String) : List Element → List Element
  | [] => []
  | el :: rest =>
    if isLangOption lang el then
      { el with classList := classListAdd ["active"] el.classList } :: rest
    else el :: markActive lang rest

/-- Model of `window.toggleLang(lang)` for a `lang` that is `selectorSafe`: the
class lists after the visibility step and the marking of the active language
option, the attribute `lang` of the document and the event `languageChanged`.
The function writes no storage.  Its writes to `value`, `textContent` and
`placeholder` of form controls and labels (script.js 683-752, 755) touch none of
these four parts of the state and are left out. -/
def toggleLang (lang : String) (page : Page) : Page :=
  { elements := markActive lang (clearActive (toggleLangVisibility lang page.elements))
    documentLang := lang
    nk_lang := page.nk_lang
    dispatched := page.dispatched ++ [("languageChanged", lang)] }

/-- Model of the click listener of a `.lang-option` (script.js 776-781); `lang`
is the text of the attribute `data-lang` of the clicked option. -/
def langOptionClick (lang : String) (page : Page) : Page :=
  toggleLang lang { page with nk_lang := some lang }

/-! ## Texts of a notification in two languages (script.js 231-298) -/

/-- Whether a character is a line terminator, which `.` does not match. -/
def isLineTerminator (c : Char) : Bool :=
  c.toNat == 0x0A || c.toNat == 0x0D || c.toNat == 0x2028 || c.toNat == 0x2029

/-- The three kinds of item in the regular expressions of the script: a literal
character, `.`, and the capturing group `(.*)`. -/
inductive RegexItem where
  | char (c : Char)
  | dot
  | group
  deriving DecidableEq, Repr

/-- Backtracking match of a pattern at the start of the input; the result is
the list of the texts captured by the groups.  A group is greedy: it first takes
every character up to the next line terminator and gives back one at a time. -/
def matchHere : List RegexItem → List Char → Option (List (List Char))
  | [], _ => some []
  | .char _ :: _, [] => none
  | .char c :: items, x :: rest => if x = c then matchHere items rest else none
  | .dot :: _, [] => none
  | .dot :: items, x :: rest => if isLineTerminator x then none else matchHere items rest
  | .group :: items, input =>
    let run := input.takeWhile fun c => !isLineTerminator c
    (List.range (run.length + 1)).reverse.findSome? fun k =>
      (matchHere items (input.drop k)).map fun groups => input.take k :: groups

/-- The method `match(regex)` of a string for a regular expression without
flags: the groups of the match that starts leftmost, `none` for `null`. -/
def regexMatch (pattern : List RegexItem) : List Char → Option (List (List Char))
  | [] => matchHere pattern []
  | c :: rest =>
    match matchHere pattern (c :: rest) with
    | some groups => some groups
    | none => regexMatch pattern rest

/-- The literal characters of a piece of a pattern. -/
def literal (s : String) : List RegexItem :=
  s.toList.map RegexItem.char

/-- The pattern `/Your application for (.*) has been (.*)/`. -/
def applicationStatusPattern : List RegexItem :=
  literal "Your application for " ++ [.group] ++ literal " has been " ++ [.group]

/-- The pattern `/A new job '(.*)' has been posted by (.*)/`. -/
def jobPostedPattern : List RegexItem :=
  literal "A new job '" ++ [.group] ++ literal "' has been posted by " ++ [.group]

/-- The pattern `/The job '(.*)' you applied for has been removed by the company./`,
whose last item is an unescaped dot. -/
def jobRemovedPattern : List RegexItem :=
  literal "The job '" ++ [.group] ++
    literal "' you applied for has been removed by the company" ++ [.dot]

/-- The pattern `/(.*) applied for (.*)/`. -/
def appliedForPattern : List RegexItem :=
  [.group] ++ literal " applied for " ++ [.group]

/-- The call `replace(/\.$/, '')`: a dot that ends the text is removed. -/
def dropFinalDot (cs : List Char) : List Char :=
  if cs.getLast? = some '.' then cs.dropLast else cs

/-- Model of `getTranslatedNotificationHtml(notification)`: the pair
`(titleHtml, messageHtml)`.  The method `toLowerCase` of the platform is the
argument `toLowerCase`. -/
def getTranslatedNotificationHtml (toLowerCase : String → String)
    (notification : Notification) : String × String :=
  let title_en := notification.title
  let title_id :=
    if notification.title = "Application Status Updated" then "Status Lamaran Diperbarui"
    else if notification.title = "New Job Posted" then "Pekerjaan Baru Diposting"
    else if notification.title = "Job Posting Removed" then "Lowongan Pekerjaan Dihapus"
    else if notification.title = "New Application Received" then "Lamaran Baru Diterima"
    else notification.title
  let message := notification.message.toList
  let texts0 : String × String := (notification.message, notification.message)
  let texts1 : String × String :=
    match regexMatch applicationStatusPattern message with
    | some [jobTitle, statusText] =>
      let status := toLowerCase (String.mk statusText)
      let status_id := if status = "accepted" then "diterima" else "ditolak"
      ("Your application for " ++ String.mk jobTitle ++ " has been " ++ status,
        "Lamaran Anda untuk " ++ String.mk jobTitle ++ " telah " ++ status_id)
    | _ => texts0
  let texts2 : String × String :=
    match regexMatch jobPostedPattern message with
    | some [jobTitle, company] =>
      let companyName := String.mk (dropFinalDot company)
      ("A new job '" ++ String.mk jobTitle ++ "' has been posted by " ++ companyName,
        "Pekerjaan baru '" ++ String.mk jobTitle ++ "' telah diposting oleh " ++ companyName)
    | _ => texts1
  let texts3 : String × String :=
    match regexMatch jobRemovedPattern message with
    | some [jobTitle] =>
      ("The job '" ++ String.mk jobTitle ++
          "' you applied for has been removed by the company.",
        "Pekerjaan '" ++ String.mk jobTitle ++ "' yang Anda lamar telah dihapus oleh perusahaan.")
    | _ => texts2
  let texts4 : String × String :=
    match regexMatch appliedForPattern message with
    | some [applicantName, job] =>
      if notification.title = "New Application Received" then
        let jobTitle := String.mk (dropFinalDot job)
        (String.mk applicantName ++ " applied for " ++ jobTitle,
          String.mk applicantName ++ " melamar untuk " ++ jobTitle)
      else texts3
    | _ => texts3
  ("<span data-i18n=\"notif_title_en\">" ++ title_en ++
      "</span><span data-i18n=\"notif_title_id\" class=\"d-none\">" ++ title_id ++ "</span>",
    "<span data-i18n=\"notif_msg_en\">" ++ texts4.1 ++
      "</span><span data-i18n=\"notif_msg_id\" class=\"d-none\">" ++ texts4.2 ++ "</span>")

/-- The relation between an element and its state after the two later class
steps of `toggleLang`, which only reset the class `active` on language options:
same attributes, same classes other than `active`, and no change at all for an
element that is not a language option. -/
def afterActiveSteps (el el' : Element) : Prop :=
  el'.attributes = el.attributes ∧
    (∀ x, x ≠ "active" → (x ∈ el'.classList ↔ x ∈ el.classList)) ∧
    ("lang-option" ∉ el.classList → el' = el)

/-! ## Loading and rendering the notification list (script.js 199-209, 301-338) -/

/-- How the request `GET /notifications` ends: `fetch` rejects, or a response
arrives with its `ok` flag and its body as a list of notifications (`none` when
`response.json()` rejects). -/
inductive NotificationsOutcome where
  | transportError
  | response (ok : Bool) (body : Option (List Notification))
  deriving DecidableEq, Repr

/-- What `loadNotifications` does: its effects, the argument of its call of
`updateNotificationUI` (`none` when it makes no such call), and the surface
afterwards. -/
structure LoadResult where
  effects : List Effect
  rendered : Option (List Notification)
  surface : Surface
  deriving DecidableEq, Repr

/-- Model of `loadNotifications(scope)` on the surface of that scope. -/
def loadNotifications (renderList : List Notification → String)
    (outcome : NotificationsOutcome) (surface : Surface) : LoadResult :=
  let request := Effect.fetch "GET" "/notifications"
  let failed : LoadResult :=
    { effects := [request, .consoleError "Error loading notifications:"]
      rendered := none
      surface := surface }
  match outcome with
  | .transportError => failed
  | .response false _ => failed
  | .response true none => failed
  | .response true (some notifications) =>
    { effects := [request]
      rendered := some notifications
      surface := updateNotificationUI renderList notifications surface }

/-- Markup of one notification in the list (script.js 312-335).  The time value
of `new Date(dateString)` and the text of `toLocaleDateString()` are functions
of the platform and are the arguments `parseDate` and `toLocaleDateString`. -/
def notificationItemHtml (toLowerCase : String → String) (parseDate : String → JSNumber)
    (now : Int) (toLocaleDateString : String → String) (notification : Notification) :
    String :=
  let isReadClass := if notification.is_read then "" else "bg-light"
  let timeAgo :=
    getTimeAgo (parseDate notification.created_at) now
      (toLocaleDateString notification.created_at)
  let translated := getTranslatedNotificationHtml toLowerCase notification
  let newBadge :=
    if !notification.is_read then "<span class=\"badge bg-primary btn-sm\">New</span>" else ""
  "\n" ++
  "                <li>\n" ++
  "                    <div class=\"dropdown-item " ++
  isReadClass ++
  " notification-item p-3\" \n" ++
  "                         data-notification-id=\"" ++
  (integerText notification.id) ++
  "\" \n" ++
  "                         data-related-id=\"" ++
  (valueText notification.related_id) ++
  "\"\n" ++
  "                         data-notification-type=\"" ++
  notification.type ++
  "\"\n" ++
  "                         style=\"cursor: pointer; border-bottom: 1px solid #f0f0f0;\">\n" ++
  "                        <div class=\"d-flex w-100 justify-content-between align-items-start\">\n" ++
  "                            <h6 class=\"mb-1\" style=\"font-size: 0.9rem;\">\n" ++
  "                                " ++
  translated.1 ++
  "  </h6>\n" ++
  "                            <small class=\"text-muted\">" ++
  timeAgo ++
  "</small>\n" ++
  "                        </div>\n" ++
  "                        <p class=\"mb-1 small text-muted\">\n" ++
  "                            " ++
  translated.2 ++
  " </p>\n" ++
  "                        " ++
  newBadge ++
  "\n" ++
  "                    </div>\n" ++
  "                </li>\n" ++
  "            "

/-- Markup that `updateNotificationUI` writes into the list (script.js 301-338). -/
def notificationListHtml (toLowerCase : String → String) (parseDate : String → JSNumber)
    (now : Int) (toLocaleDateString : String → String) (notifications : List Notification) :
    String :=
  if notifications.length = 0 then
    "\n" ++
    "            <li class=\"text-center py-3 text-muted\">\n" ++
    "                <span data-i18n=\"no_notifications_en\">No notifications</span>\n" ++
    "                <span data-i18n=\"no_notifications_id\" class=\"d-none\">Tidak ada notifikasi</span>\n" ++
    "            </li>\n" ++
    "        "
  else
    notifications.foldl
      (fun html notification =>
        html ++ notificationItemHtml toLowerCase parseDate now toLocaleDateString notification)
      ""

/-- Whether a text stands for itself between the double quotes of an attribute
in markup: it holds no double quote, ampersand, carriage return or NUL. -/
def attributeSafe (s : String) : Bool :=
  s.toList.all fun c =>
    c.toNat != 0x22 && c.toNat != 0x26 && c.toNat != 0x0D && c.toNat != 0x00

/-- The element that the `div` of `notificationItemHtml` becomes in the page,
for a notification whose `type` is `attributeSafe`: its classes and the
attributes written in the markup (the attribute `class` is the class list). -/
def renderedItem (notification : Notification) : Element :=
  { classList :=
      if notification.is_read then ["dropdown-item", "notification-item", "p-3"]
      else ["dropdown-item", "bg-light", "notification-item", "p-3"]
    attributes :=
      [("data-notification-id", integerText notification.id),
        ("data-related-id", valueText notification.related_id),
        ("data-notification-type", notification.type),
        ("style", "cursor: pointer; border-bottom: 1px solid #f0f0f0;")] }

/-- The fields of a fetched notification that `handleNotificationClick` reads,
as the object it would receive. -/
def Notification.toClicked (notification : Notification) : ClickedNotification :=
  { id := some (integerText notification.id)
    related_id := notification.related_id
    type := some notification.type }

/-! ## Translation of the modal content (script.js 358-380) -/

/-- The callback that `translateModalContent` runs on each element selected by
`[data-i18n]` inside the modal (script.js 361-379); an element without the
attribute is not selected and stays as it is. -/
def translateModalContentElement (lang : String) (el : Element) : Element :=
  match el.getAttribute "data-i18n" with
  | none => el
  | some id =>
    if endsWith id "_en" || endsWith id "_id" then
      if lang = "en" then
        if endsWith id "_en" then
          { el with classList := classListRemove ["d-none", "hidden"] el.classList }
        else if endsWith id "_id" then
          { el with classList := classListAdd ["d-none", "hidden"] el.classList }
        else el
      else if lang = "id" then
        if endsWith id "_id" then
          { el with classList := classListRemove ["d-none", "hidden"] el.classList }
        else if endsWith id "_en" then
          { el with classList := classListAdd ["d-none", "hidden"] el.classList }
        else el
      else el
    else el

/-- Model of `translateModalContent(modalElement, lang)`.  `modalElement` is the
list of the elements inside the modal in document order, `none` for a modal that
is not in the page; the result is that list afterwards. -/
def translateModalContent (modalElement : Option (List Element)) (lang : String) :
    Option (List Element) :=
  match modalElement with
  | none => none
  | some elements => some (elements.map (translateModalContentElement lang))

/-- The ten characters that the decimal text of a number is made of. -/
def decimalDigitChars : List Char :=
  ['0', '1', '2', '3', '4', '5', '6', '7', '8', '9']

/-- The number that `parseInt` reads from a run of decimal digits. -/
def decimalValue (start : Nat) (digits : List Char) : Nat :=
  digits.foldl (fun acc c => acc * 10 + digitValue c) start

/-- A lower-casing of ASCII letters that leaves other characters as they are:
the method `toLowerCase` of the platform on the status words of the backend
(`Accepted`, `Rejected`), used to evaluate examples. -/
def asciiLowerCase (s : String) : String :=
  String.mk (s.toList.map Char.toLower)

/-! ## Theorems: notification click router -/

/-- The role read by the router is `applicant` or `company` exactly when the page flag is. -/
theorem getD_role_eq (role : Option String) (r : String) (hr : r ≠ "") :
    role.getD "" = r ↔ role = some r := by
  cases role with
  | none => simp [Option.getD]; exact fun h => hr h.symm
  | some x => simp [Option.getD]

/-- C1: when related_id is null, zero, or not a number (isNaN holds, which covers NaN),
handleNotificationClick only writes one console line, whatever the type, the role and
the answer of the backend: no navigation, no job-detail modal, no lookup request and no alert. -/
theorem handleNotificationClick_unusable_related_id (window : Window) (lookup : LookupOutcome)
    (n : ClickedNotification)
    (h : n.related_id = .null ∨ n.related_id = .number (.int 0) ∨ isNaN n.related_id = true) :
    handleNotificationClick window lookup n =
        [.consoleLog "Notifikasi tanpa ID terkait/Job dihapus, tidak ada navigasi."] ∧
      (∀ href, Effect.setLocationHref href ∉ handleNotificationClick window lookup n) ∧
      (∀ jobId, Effect.showJobDetail jobId ∉ handleNotificationClick window lookup n) ∧
      (∀ method url, Effect.fetch method url ∉ handleNotificationClick window lookup n) ∧
      (∀ msg, Effect.alert msg ∉ handleNotificationClick window lookup n) := by
  have key : handleNotificationClick window lookup n =
      [.consoleLog "Notifikasi tanpa ID terkait/Job dihapus, tidak ada navigasi."] := by
    unfold handleNotificationClick
    simp only [if_pos h]
  rw [key]
  simp

/-- Witness of C1 at the notification of type job_posted with related_id 0, seen by an applicant. -/
theorem handleNotificationClick_unusable_related_id_witness :
    ((JSValue.number (.int 0) = .null ∨ JSValue.number (.int 0) = .number (.int 0) ∨
        isNaN (.number (.int 0)) = true) ∧
      handleNotificationClick ⟨some "applicant", .bool true⟩ .transportError
          ⟨some "5", .number (.int 0), some "job_posted"⟩ =
        [.consoleLog "Notifikasi tanpa ID terkait/Job dihapus, tidak ada navigasi."]) :=
  ⟨Or.inr (Or.inl rfl),
    (handleNotificationClick_unusable_related_id ⟨some "applicant", .bool true⟩ .transportError
      ⟨some "5", .number (.int 0), some "job_posted"⟩ (Or.inr (Or.inl rfl))).1⟩

/-- C2: for a notification of type application_status with a non-zero integer related_id:
an applicant triggers the lookup request for related_id; when the answer is a success that
carries a job id (a truthy value, such as a non-zero number) the job detail modal is opened
for exactly that job id; when the answer is a non-success response or the request fails in
transport, the job-deleted alert is shown, with no navigation and no modal; any other
viewer is sent to the dashboard without a lookup. -/
theorem handleNotificationClick_application_status (window : Window) (n : ClickedNotification)
    (i : Int) (hi : i ≠ 0) (hid : n.related_id = .number (.int i))
    (htype : n.type = some "application_status") :
    (window.currentUserRole = some "applicant" →
      (∀ jobId, toBoolean jobId = true →
        handleNotificationClick window (.response true (some jobId)) n =
          [.fetch "GET" ("/api/get_job_id/" ++ toString i), .showJobDetail jobId]) ∧
      (∀ body, handleNotificationClick window (.response false body) n =
          [.fetch "GET" ("/api/get_job_id/" ++ toString i),
            .alert "Job terkait sudah dihapus oleh perusahaan."]) ∧
      handleNotificationClick window .transportError n =
          [.fetch "GET" ("/api/get_job_id/" ++ toString i),
            .consoleError "Error fetching job ID:",
            .alert "Job terkait sudah dihapus oleh perusahaan."]) ∧
    (window.currentUserRole ≠ some "applicant" →
      ∀ lookup, handleNotificationClick window lookup n = [.setLocationHref "/dashboard"]) := by
  constructor
  · intro hrole
    refine ⟨?_, ?_, ?_⟩
    · intro jobId hj
      simp [handleNotificationClick, hid, htype, hrole, isNaN, hi, fetchJobIdFromApplication,
        hj, templateString, numberToString]
    · intro body
      simp [handleNotificationClick, hid, htype, hrole, isNaN, hi, fetchJobIdFromApplication,
        toBoolean, templateString, numberToString]
    · simp [handleNotificationClick, hid, htype, hrole, isNaN, hi, fetchJobIdFromApplication,
        toBoolean, templateString, numberToString]
  · intro hrole lookup
    have hr : ¬ window.currentUserRole.getD "" = "applicant" := by
      rw [getD_role_eq _ _ (by decide)]; exact hrole
    simp [handleNotificationClick, hid, htype, isNaN, hi, hr]

/-- Witness of C2 at related_id 77, seen by an applicant. -/
theorem handleNotificationClick_application_status_witness :
    (77 : Int) ≠ 0 ∧
      handleNotificationClick ⟨some "applicant", .bool true⟩ (.response false none)
          ⟨some "3", .number (.int 77), some "application_status"⟩ =
        [.fetch "GET" "/api/get_job_id/77",
          .alert "Job terkait sudah dihapus oleh perusahaan."] ∧
      handleNotificationClick ⟨some "applicant", .bool true⟩
          (.response true (some (.number (.int 12))))
          ⟨some "3", .number (.int 77), some "application_status"⟩ =
        [.fetch "GET" "/api/get_job_id/77", .showJobDetail (.number (.int 12))] ∧
      handleNotificationClick ⟨some "company", .bool true⟩ (.response false none)
          ⟨some "3", .number (.int 77), some "application_status"⟩ =
        [.setLocationHref "/dashboard"] :=
  have h := handleNotificationClick_application_status
  ⟨by decide,
    ((h ⟨some "applicant", .bool true⟩ ⟨some "3", .number (.int 77), some "application_status"⟩
      77 (by decide) rfl rfl).1 rfl).2.1 none,
    ((h ⟨some "applicant", .bool true⟩ ⟨some "3", .number (.int 77), some "application_status"⟩
      77 (by decide) rfl rfl).1 rfl).1 (.number (.int 12)) rfl,
    (h ⟨some "company", .bool true⟩ ⟨some "3", .number (.int 77), some "application_status"⟩
      77 (by decide) rfl rfl).2 (by decide) (.response false none)⟩

/-- C3: for a notification of type job_posted with a non-zero integer related_id, an applicant
gets the job detail modal for exactly related_id and no navigation; every other viewer role,
an unset role included, is sent to the dashboard and gets no modal. -/
theorem handleNotificationClick_job_posted (window : Window) (lookup : LookupOutcome)
    (n : ClickedNotification) (i : Int) (hi : i ≠ 0) (hid : n.related_id = .number (.int i))
    (htype : n.type = some "job_posted") :
    (window.currentUserRole = some "applicant" →
      handleNotificationClick window lookup n = [.showJobDetail (.number (.int i))]) ∧
    (window.currentUserRole ≠ some "applicant" →
      handleNotificationClick window lookup n = [.setLocationHref "/dashboard"]) := by
  constructor
  · intro hrole
    simp [handleNotificationClick, hid, htype, hrole, isNaN, hi]
  · intro hrole
    have hr : ¬ window.currentUserRole.getD "" = "applicant" := by
      rw [getD_role_eq _ _ (by decide)]; exact hrole
    simp [handleNotificationClick, hid, htype, isNaN, hi, hr]

/-- Witness of C3 at related_id 42: an applicant, and a page with no role set. -/
theorem handleNotificationClick_job_posted_witness :
    (42 : Int) ≠ 0 ∧
      handleNotificationClick ⟨some "applicant", .bool true⟩ .transportError
          ⟨some "1", .number (.int 42), some "job_posted"⟩ =
        [.showJobDetail (.number (.int 42))] ∧
      handleNotificationClick ⟨none, .undefined⟩ .transportError
          ⟨some "1", .number (.int 42), some "job_posted"⟩ =
        [.setLocationHref "/dashboard"] :=
  ⟨by decide,
    (handleNotificationClick_job_posted ⟨some "applicant", .bool true⟩ .transportError
      ⟨some "1", .number (.int 42), some "job_posted"⟩ 42 (by decide) rfl rfl).1 rfl,
    (handleNotificationClick_job_posted ⟨none, .undefined⟩ .transportError
      ⟨some "1", .number (.int 42), some "job_posted"⟩ 42 (by decide) rfl rfl).2 (by decide)⟩

/-- C4: for a notification of type application_received with a non-zero integer related_id,
a company is sent to /company/application/ followed by related_id; every other viewer role
is sent to the dashboard. -/
theorem handleNotificationClick_application_received (window : Window)
    (lookup : LookupOutcome) (n : ClickedNotification) (i : Int) (hi : i ≠ 0)
    (hid : n.related_id = .number (.int i)) (htype : n.type = some "application_received") :
    (window.currentUserRole = some "company" →
      handleNotificationClick window lookup n =
        [.setLocationHref ("/company/application/" ++ toString i)]) ∧
    (window.currentUserRole ≠ some "company" →
      handleNotificationClick window lookup n = [.setLocationHref "/dashboard"]) := by
  constructor
  · intro hrole
    simp [handleNotificationClick, hid, htype, hrole, isNaN, hi, templateString,
      numberToString]
  · intro hrole
    have hr : ¬ window.currentUserRole.getD "" = "company" := by
      rw [getD_role_eq _ _ (by decide)]; exact hrole
    simp [handleNotificationClick, hid, htype, isNaN, hi, hr]

/-- Witness of C4 at related_id 9: a company, and an applicant. -/
theorem handleNotificationClick_application_received_witness :
    (9 : Int) ≠ 0 ∧
      handleNotificationClick ⟨some "company", .bool true⟩ .transportError
          ⟨some "1", .number (.int 9), some "application_received"⟩ =
        [.setLocationHref "/company/application/9"] ∧
      handleNotificationClick ⟨some "applicant", .bool true⟩ .transportError
          ⟨some "1", .number (.int 9), some "application_received"⟩ =
        [.setLocationHref "/dashboard"] :=
  ⟨by decide,
    (handleNotificationClick_application_received ⟨some "company", .bool true⟩ .transportError
      ⟨some "1", .number (.int 9), some "application_received"⟩ 9 (by decide) rfl rfl).1 rfl,
    (handleNotificationClick_application_received ⟨some "applicant", .bool true⟩
      .transportError ⟨some "1", .number (.int 9), some "application_received"⟩ 9
      (by decide) rfl rfl).2 (by decide)⟩

/-- C5: for a notification with a non-zero integer related_id whose type is none of job_posted,
application_received and application_status, every viewer is sent to the dashboard, and the
trace holds no modal and no lookup request. -/
theorem handleNotificationClick_other_type (window : Window) (lookup : LookupOutcome)
    (n : ClickedNotification) (i : Int) (hi : i ≠ 0) (hid : n.related_id = .number (.int i))
    (h1 : n.type ≠ some "job_posted") (h2 : n.type ≠ some "application_received")
    (h3 : n.type ≠ some "application_status") :
    handleNotificationClick window lookup n = [.setLocationHref "/dashboard"] ∧
      (∀ jobId, Effect.showJobDetail jobId ∉ handleNotificationClick window lookup n) ∧
      (∀ method url, Effect.fetch method url ∉ handleNotificationClick window lookup n) := by
  have key : handleNotificationClick window lookup n = [.setLocationHref "/dashboard"] := by
    simp [handleNotificationClick, hid, isNaN, hi, h1, h2, h3]
  rw [key]
  simp

/-- Witness of C5 at a notification of type job_removed with related_id 4. -/
theorem handleNotificationClick_other_type_witness :
    (4 : Int) ≠ 0 ∧
      handleNotificationClick ⟨some "applicant", .bool true⟩ .transportError
          ⟨some "1", .number (.int 4), some "job_removed"⟩ =
        [.setLocationHref "/dashboard"] :=
  ⟨by decide,
    (handleNotificationClick_other_type ⟨some "applicant", .bool true⟩ .transportError
      ⟨some "1", .number (.int 4), some "job_removed"⟩ 4 (by decide) rfl
      (by decide) (by decide) (by decide)).1⟩

/-! ## Theorems: click listeners, badge, relative time, apply button -/

/-- The walk up from the clicked element stops at the first element that carries the class
notification-item. -/
theorem findNotificationItem_append (inner : List Element) (item : Element)
    (outer : List Element)
    (hinner : ∀ el ∈ inner, "notification-item" ∉ el.classList)
    (hitem : "notification-item" ∈ item.classList) :
    findNotificationItem (inner ++ item :: outer) = .ok item := by
  induction inner with
  | nil => simp [findNotificationItem, hitem]
  | cons el rest ih =>
    have hel : "notification-item" ∉ el.classList := hinner el (List.mem_cons_self _ _)
    have hrest : ∀ e ∈ rest, "notification-item" ∉ e.classList :=
      fun e he => hinner e (List.mem_cons_of_mem _ he)
    simp [findNotificationItem, hel, ih hrest]

/-- C6: a click that lands on a notification item or on an element inside it, in the desktop
list (scope empty) or the mobile list (scope Mobile), first issues the POST request
/notifications/read/ followed by the notification id of the item; the router runs after it,
so the request is issued whatever the type, the related_id and the outcome of the routing. -/
theorem notificationListClick_marks_read (scope : String) (window : Window)
    (lookup : LookupOutcome) (inner : List Element) (item : Element) (outer : List Element)
    (id : String)
    (hinner : ∀ el ∈ inner, "notification-item" ∉ el.classList)
    (hitem : "notification-item" ∈ item.classList)
    (hid : item.getAttribute "data-notification-id" = some id) :
    notificationListClick scope window lookup (inner ++ item :: outer) =
      .ok (Effect.fetch "POST" ("/notifications/read/" ++ id) ::
        handleNotificationClick window lookup
          { id := some id
            related_id := match item.getAttribute "data-related-id" with
              | some r => if r ≠ "" then .number (parseInt r) else .null
              | none => .null
            type := item.getAttribute "data-notification-type" }) := by
  simp [notificationListClick, findNotificationItem_append inner item outer hinner hitem, hid,
    markNotificationRead]

/-- Witness of C6: a click on the heading inside the item of notification 8 in the mobile
list, where the item refers to the deleted job (related_id rendered as null): the mark-read
request is issued although the router then does nothing. -/
theorem notificationListClick_marks_read_witness :
    "notification-item" ∈ ["dropdown-item", "bg-light", "notification-item", "p-3"] ∧
      notificationListClick "Mobile" ⟨some "applicant", .bool true⟩ .transportError
          ([⟨["mb-1"], []⟩] ++
            (⟨["dropdown-item", "bg-light", "notification-item", "p-3"],
              [("data-notification-id", "8"), ("data-related-id", "null"),
                ("data-notification-type", "job_posted")]⟩ : Element) :: [⟨[], []⟩]) =
        .ok [.fetch "POST" "/notifications/read/8",
          .consoleLog "Notifikasi tanpa ID terkait/Job dihapus, tidak ada navigasi."] :=
  ⟨by decide,
    (notificationListClick_marks_read "Mobile" ⟨some "applicant", .bool true⟩ .transportError
      [⟨["mb-1"], []⟩]
      ⟨["dropdown-item", "bg-light", "notification-item", "p-3"],
        [("data-notification-id", "8"), ("data-related-id", "null"),
          ("data-notification-type", "job_posted")]⟩
      [⟨[], []⟩] "8" (by decide) (by decide) rfl).trans rfl⟩

/-- C7: on a surface whose list and badge both exist, after updateNotificationUI the badge is
hidden (display none) exactly when no fetched notification has is_read false, and otherwise
it is displayed with the number of such notifications as its text; so what the badge shows
is that count, or nothing when the count is 0. -/
theorem updateNotificationUI_badge (renderList : List Notification → String)
    (notifications : List Notification) (listHtml : String) (badge : Badge) :
    ∃ updated : Badge,
      (updateNotificationUI renderList notifications ⟨some listHtml, some badge⟩).notificationBadge
          = some updated ∧
      (updated.display = "none" ↔ notifications.countP (fun n => n.is_read = false) = 0) ∧
      (notifications.countP (fun n => n.is_read = false) ≠ 0 →
        updated.display = "block" ∧
        updated.textContent = toString (notifications.countP (fun n => n.is_read = false))) ∧
      updated.shown =
        (if notifications.countP (fun n => n.is_read = false) = 0 then none
          else some (toString (notifications.countP (fun n => n.is_read = false)))) := by
  have hcount : (notifications.filter (fun n => !n.is_read)).length =
      notifications.countP (fun n => n.is_read = false) := by
    rw [List.countP_eq_length_filter]
    congr 2
    funext n
    cases n.is_read <;> simp
  simp only [updateNotificationUI, hcount]
  generalize notifications.countP (fun n => n.is_read = false) = c
  by_cases h0 : c = 0
  · subst h0
    exact ⟨{ badge with display := "none" }, by simp, by simp, by simp, by simp [Badge.shown]⟩
  · have hpos : c > 0 := Nat.pos_of_ne_zero h0
    exact ⟨{ textContent := toString c, display := "block" }, by simp [hpos], by simp [h0],
      by simp, by simp [Badge.shown, h0]⟩

/-- Integer division by a positive literal is the floor of the exact quotient. -/
theorem floor_quotient (d : Int) (k : Nat) : ⌊(d : ℚ) / (k : ℚ)⌋ = d / (k : Int) :=
  Rat.floor_intCast_div_natCast d k

/-- C8: with d the elapsed milliseconds between the timestamp and now, getTimeAgo gives
Just now for d under one minute, floor(d/60000) and m ago under 60 minutes, floor(d/3600000)
and h ago under 24 hours, floor(d/86400000) and d ago under 7 days, and the locale date
otherwise; so 30 seconds gives Just now, 5 minutes 5m ago, 3 hours 3h ago, 2 days 2d ago and
10 days the date. -/
theorem getTimeAgo_buckets (now d : Int) (localeDateString : String) :
    getTimeAgo (.int (now - d)) now localeDateString =
        (if d < 60000 then "Just now"
         else if d < 60 * 60000 then toString ⌊(d : ℚ) / 60000⌋ ++ "m ago"
         else if d < 24 * 3600000 then toString ⌊(d : ℚ) / 3600000⌋ ++ "h ago"
         else if d < 7 * 86400000 then toString ⌊(d : ℚ) / 86400000⌋ ++ "d ago"
         else localeDateString) ∧
      getTimeAgo (.int (now - 30 * 1000)) now localeDateString = "Just now" ∧
      getTimeAgo (.int (now - 5 * 60000)) now localeDateString = "5m ago" ∧
      getTimeAgo (.int (now - 3 * 3600000)) now localeDateString = "3h ago" ∧
      getTimeAgo (.int (now - 2 * 86400000)) now localeDateString = "2d ago" ∧
      getTimeAgo (.int (now - 10 * 86400000)) now localeDateString = localeDateString := by
  have h1 : ⌊(d : ℚ) / 60000⌋ = d / 60000 := by
    have := floor_quotient d 60000; push_cast at this; exact this
  have h2 : ⌊(d : ℚ) / 3600000⌋ = d / 3600000 := by
    have := floor_quotient d 3600000; push_cast at this; exact this
  have h3 : ⌊(d : ℚ) / 86400000⌋ = d / 86400000 := by
    have := floor_quotient d 86400000; push_cast at this; exact this
  have general : ∀ e : Int, getTimeAgo (.int (now - e)) now localeDateString =
      (if e < 60000 then "Just now"
       else if e < 3600000 then toString (e / 60000) ++ "m ago"
       else if e < 86400000 then toString (e / 3600000) ++ "h ago"
       else if e < 604800000 then toString (e / 86400000) ++ "d ago"
       else localeDateString) := by
    intro e
    have m1 : e / 60000 < 1 ↔ e < 60000 := by omega
    have m2 : e / 60000 < 60 ↔ e < 3600000 := by omega
    have m3 : e / 3600000 < 24 ↔ e < 86400000 := by omega
    have m4 : e / 86400000 < 7 ↔ e < 604800000 := by omega
    simp only [getTimeAgo, JSNumber.subFrom, JSNumber.floorDiv, JSNumber.lt, numberToString,
      sub_sub_cancel, decide_eq_true_eq, m1, m2, m3, m4]
  refine ⟨?_, ?_, ?_, ?_, ?_, ?_⟩
  · rw [general, h1, h2, h3]; norm_num
  · rw [general]; norm_num
  · rw [general]; norm_num; rfl
  · rw [general]; norm_num; rfl
  · rw [general]; norm_num; rfl
  · rw [general]; norm_num

/-- C9: a job with is_open false gets the disabled Job Closed button whatever applied_count,
slots and the viewer are, so closed comes before full; a job with is_open true and
applied_count at least slots gets the disabled Slots Full button whatever the viewer is. -/
theorem applyButton_closed_or_full (window : Window) (job : Job) :
    (job.is_open = false → applyButton window job = jobClosedButton) ∧
    (job.is_open = true → job.applied_count ≥ job.slots →
      applyButton window job = slotsFullButton) := by
  constructor
  · intro hclosed
    simp [applyButton, hclosed]
  · intro hopen hfull
    simp [applyButton, hopen, hfull]

/-- Witness of C9: a closed job that is also full, seen by an applicant, and an open job with
applied_count 10 and slots 10, seen by a visitor who is not logged in. -/
theorem applyButton_closed_or_full_witness :
    applyButton ⟨some "applicant", .bool true⟩
        { id := 3, title := "Cook", company := "Warung", company_id := 1, location := "Bandung",
          salary_min := .null, salary_max := .null, slots := 10, applied_count := 10,
          is_open := false, qualifications := "", description := "" } = jobClosedButton ∧
      ((10 : Int) ≥ 10 ∧
        applyButton ⟨none, .bool false⟩
          { id := 3, title := "Cook", company := "Warung", company_id := 1,
            location := "Bandung", salary_min := .null, salary_max := .null, slots := 10,
            applied_count := 10, is_open := true, qualifications := "", description := "" } =
          slotsFullButton) :=
  ⟨(applyButton_closed_or_full ⟨some "applicant", .bool true⟩
      { id := 3, title := "Cook", company := "Warung", company_id := 1, location := "Bandung",
        salary_min := .null, salary_max := .null, slots := 10, applied_count := 10,
        is_open := false, qualifications := "", description := "" }).1 rfl,
    by decide,
    (applyButton_closed_or_full ⟨none, .bool false⟩
      { id := 3, title := "Cook", company := "Warung", company_id := 1, location := "Bandung",
        salary_min := .null, salary_max := .null, slots := 10, applied_count := 10,
        is_open := true, qualifications := "", description := "" }).2 rfl (by decide)⟩

/-- C10: for a job that is open with applied_count below slots, the apply button is the link to
/apply/ followed by the job id when the viewer is authenticated with role applicant, the link
to /login when the viewer is not authenticated whatever the role is, and empty when the
viewer is authenticated with any other role. -/
theorem applyButton_open_not_full (window : Window) (job : Job)
    (hopen : job.is_open = true) (hfree : job.applied_count < job.slots) :
    (window.isAuthenticated = .bool true → window.currentUserRole = some "applicant" →
      applyButton window job = applyNowLink job.id) ∧
    (window.isAuthenticated ≠ .bool true → applyButton window job = loginToApplyLink) ∧
    (window.isAuthenticated = .bool true → window.currentUserRole ≠ some "applicant" →
      applyButton window job = "") := by
  have hnotfull : ¬ job.slots ≤ job.applied_count := by omega
  refine ⟨?_, ?_, ?_⟩
  · intro hauth hrole
    simp [applyButton, hopen, hnotfull, hauth, hrole]
  · intro hauth
    simp [applyButton, hopen, hnotfull, hauth]
  · intro hauth hrole
    simp [applyButton, hopen, hnotfull, hauth, hrole]

/-- Witness of C10 at job 7 with 2 of 5 slots taken: an applicant, a visitor whose role flag
says applicant but who is not authenticated, and a company. -/
theorem applyButton_open_not_full_witness :
    (2 : Int) < 5 ∧
      applyButton ⟨some "applicant", .bool true⟩
          { id := 7, title := "Cook", company := "Warung", company_id := 1,
            location := "Bandung", salary_min := .null, salary_max := .null, slots := 5,
            applied_count := 2, is_open := true, qualifications := "", description := "" } =
        applyNowLink 7 ∧
      applyButton ⟨some "applicant", .bool false⟩
          { id := 7, title := "Cook", company := "Warung", company_id := 1,
            location := "Bandung", salary_min := .null, salary_max := .null, slots := 5,
            applied_count := 2, is_open := true, qualifications := "", description := "" } =
        loginToApplyLink ∧
      applyButton ⟨some "company", .bool true⟩
          { id := 7, title := "Cook", company := "Warung", company_id := 1,
            location := "Bandung", salary_min := .null, salary_max := .null, slots := 5,
            applied_count := 2, is_open := true, qualifications := "", description := "" } =
        "" :=
  ⟨by decide,
    (applyButton_open_not_full ⟨some "applicant", .bool true⟩
      { id := 7, title := "Cook", company := "Warung", company_id := 1, location := "Bandung",
        salary_min := .null, salary_max := .null, slots := 5, applied_count := 2,
        is_open := true, qualifications := "", description := "" } rfl (by decide)).1 rfl rfl,
    (applyButton_open_not_full ⟨some "applicant", .bool false⟩
      { id := 7, title := "Cook", company := "Warung", company_id := 1, location := "Bandung",
        salary_min := .null, salary_max := .null, slots := 5, applied_count := 2,
        is_open := true, qualifications := "", description := "" } rfl (by decide)).2.1
      (by decide),
    (applyButton_open_not_full ⟨some "company", .bool true⟩
      { id := 7, title := "Cook", company := "Warung", company_id := 1, location := "Bandung",
        salary_min := .null, salary_max := .null, slots := 5, applied_count := 2,
        is_open := true, qualifications := "", description := "" } rfl (by decide)).2.2 rfl
      (by decide)⟩

/-! ## Theorems: salary text and currency -/

/-- A text that starts with a non-empty text is not empty. -/
theorem append_ne_empty (a b : String) (ha : a ≠ "") : a ++ b ≠ "" := by
  intro h
  apply ha
  have hlen := congrArg String.length h
  rw [String.length_append] at hlen
  have h0 : a.length = 0 := by
    have : ("" : String).length = 0 := rfl
    omega
  cases a with
  | mk cs =>
    have hcs : cs = [] := List.length_eq_zero.mp h0
    rw [hcs]

/-- The formatter modelled from the spec never gives the empty text. -/
theorem rupiahFormat_ne_empty (v : JSValue) : rupiahFormat v ≠ "" := by
  cases v with
  | number n =>
    cases n with
    | nan => decide
    | int i =>
      show (if i < 0 then "-Rp" else "Rp") ++ _ ≠ ""
      exact append_ne_empty _ _ (by split <;> decide)
  | null => decide
  | undefined => decide
  | bool b => show "Rp0" ≠ ""; decide
  | str s => show "Rp0" ≠ ""; decide

/-- A non-empty text is truthy and is rendered as itself. -/
theorem formatCurrency_present (format : JSValue → String) (hformat : ∀ v, format v ≠ "")
    (i : Int) (hi : i ≠ 0) :
    formatCurrency format (.number (.int i)) = some (format (.number (.int i))) ∧
      stringTruthy (formatCurrency format (.number (.int i))) = true := by
  have h : formatCurrency format (.number (.int i)) = some (format (.number (.int i))) := by
    simp [formatCurrency, isNaN, hi]
  refine ⟨h, ?_⟩
  rw [h]
  simp [stringTruthy, hformat]

/-- A salary that is the number 0 or NaN is formatted to null. -/
theorem formatCurrency_absent (format : JSValue → String) (n : JSNumber)
    (hn : ¬ ∃ i : Int, i ≠ 0 ∧ n = .int i) : formatCurrency format (.number n) = none := by
  cases n with
  | nan => simp [formatCurrency, isNaN]
  | int i =>
    have hi : i = 0 := by
      by_contra hne
      exact hn ⟨i, hne, rfl⟩
    simp [formatCurrency, hi]

/-- The model of the platform formatter never gives the empty text. -/
theorem idrNumberFormat_ne_empty (v : JSValue) : idrNumberFormat v ≠ "" := by
  cases v with
  | number n =>
    cases n with
    | nan => decide
    | int i =>
      show (if i < 0 then "-Rp\u00a0" else "Rp\u00a0") ++ _ ≠ ""
      exact append_ne_empty _ _ (by split <;> decide)
  | null => decide
  | undefined => decide
  | bool b => show "Rp\u00a00" ≠ ""; decide
  | str s => show "Rp\u00a00" ≠ ""; decide

/-- Two salaries that are non-zero numbers are shown as the range of the two formatted
amounts. -/
theorem salaryText_both (format : JSValue → String) (hformat : ∀ v, format v ≠ "")
    (job : Job) (i j : Int) (hi : i ≠ 0) (hj : j ≠ 0)
    (hmin : job.salary_min = .number (.int i)) (hmax : job.salary_max = .number (.int j)) :
    salaryText format job =
      (format (.number (.int i)) ++ " - " ++ format (.number (.int j)),
        format (.number (.int i)) ++ " - " ++ format (.number (.int j))) := by
  have h1 := formatCurrency_present format hformat i hi
  have h2 := formatCurrency_present format hformat j hj
  simp [salaryText, hmin, hmax, h1.1, h2.1, stringTruthy, hformat, stringTemplate]

/-- C11 (counterexample): a job whose two salaries are null has no salary that is a non-zero
number, yet its salary text is not Salary not disclosed: it is the range of the two texts that
the platform formats null to, Rp 0 - Rp 0.  And the job with the salaries 5000000 and 8000000
is shown with the text of the platform, Rp 5.000.000 - Rp 8.000.000 with a no-break space
(U+00A0) after each Rp, which is not the text Rp5.000.000 - Rp8.000.000. -/
theorem salaryText_not_by_presence :
    (∀ format : JSValue → String, format .null ≠ "" →
        salaryText format
            { id := 3, title := "Cook", company := "Warung", company_id := 1,
              location := "Bandung", salary_min := .null, salary_max := .null, slots := 10,
              applied_count := 2, is_open := true, qualifications := "",
              description := "" } =
          (format .null ++ " - " ++ format .null, format .null ++ " - " ++ format .null)) ∧
      salaryText idrNumberFormat
          { id := 3, title := "Cook", company := "Warung", company_id := 1,
            location := "Bandung", salary_min := .null, salary_max := .null, slots := 10,
            applied_count := 2, is_open := true, qualifications := "", description := "" } =
        ("Rp\u00a00 - Rp\u00a00", "Rp\u00a00 - Rp\u00a00") ∧
      salaryText idrNumberFormat
          { id := 3, title := "Cook", company := "Warung", company_id := 1,
            location := "Bandung", salary_min := .null, salary_max := .null, slots := 10,
            applied_count := 2, is_open := true, qualifications := "", description := "" } ≠
        ("Salary not disclosed", "Gaji tidak ditampilkan") ∧
      salaryText idrNumberFormat
          { id := 3, title := "Cook", company := "Warung", company_id := 1,
            location := "Bandung", salary_min := .number (.int 5000000),
            salary_max := .number (.int 8000000), slots := 10, applied_count := 2,
            is_open := true, qualifications := "", description := "" } =
        ("Rp\u00a05.000.000 - Rp\u00a08.000.000", "Rp\u00a05.000.000 - Rp\u00a08.000.000") ∧
      salaryText idrNumberFormat
          { id := 3, title := "Cook", company := "Warung", company_id := 1,
            location := "Bandung", salary_min := .number (.int 5000000),
            salary_max := .number (.int 8000000), slots := 10, applied_count := 2,
            is_open := true, qualifications := "", description := "" } ≠
        ("Rp5.000.000 - Rp8.000.000", "Rp5.000.000 - Rp8.000.000") := by
  refine ⟨?_, by decide, by decide, by decide, by decide⟩
  intro format hformat
  simp [salaryText, formatCurrency, isNaN, stringTruthy, stringTemplate, hformat]

/-- C11 (amended): for a job whose salary_min and salary_max are numbers, with a salary present
when it is a non-zero number, the salary text is: both present, the two formatted amounts
joined by a dash in both languages; only min, From and Mulai dari before the amount; only max,
Up to and Hingga before the amount; neither, Salary not disclosed and Gaji tidak ditampilkan.
The pair 5000000, 8000000 gives the two amounts as the platform formats them joined by a dash,
which with the text of the platform is Rp 5.000.000 - Rp 8.000.000 with a no-break space
(U+00A0) after each Rp, and the pair 0, 0 gives Salary not disclosed. -/
theorem salaryText_by_presence (format : JSValue → String) (hformat : ∀ v, format v ≠ "")
    (job : Job) (a b : JSNumber) (hmin : job.salary_min = .number a)
    (hmax : job.salary_max = .number b) :
    ((∃ i : Int, i ≠ 0 ∧ a = .int i) → (∃ j : Int, j ≠ 0 ∧ b = .int j) →
      salaryText format job =
        (format (.number a) ++ " - " ++ format (.number b),
          format (.number a) ++ " - " ++ format (.number b))) ∧
    ((∃ i : Int, i ≠ 0 ∧ a = .int i) → (¬ ∃ j : Int, j ≠ 0 ∧ b = .int j) →
      salaryText format job =
        ("From " ++ format (.number a), "Mulai dari " ++ format (.number a))) ∧
    ((¬ ∃ i : Int, i ≠ 0 ∧ a = .int i) → (∃ j : Int, j ≠ 0 ∧ b = .int j) →
      salaryText format job =
        ("Up to " ++ format (.number b), "Hingga " ++ format (.number b))) ∧
    ((¬ ∃ i : Int, i ≠ 0 ∧ a = .int i) → (¬ ∃ j : Int, j ≠ 0 ∧ b = .int j) →
      salaryText format job = ("Salary not disclosed", "Gaji tidak ditampilkan")) ∧
    (a = .int 5000000 → b = .int 8000000 →
      salaryText format job =
        (format (.number (.int 5000000)) ++ " - " ++ format (.number (.int 8000000)),
          format (.number (.int 5000000)) ++ " - " ++ format (.number (.int 8000000))) ∧
      salaryText idrNumberFormat job =
        ("Rp\u00a05.000.000 - Rp\u00a08.000.000", "Rp\u00a05.000.000 - Rp\u00a08.000.000")) ∧
    (a = .int 0 → b = .int 0 →
      salaryText format job = ("Salary not disclosed", "Gaji tidak ditampilkan")) := by
  have neither : (¬ ∃ i : Int, i ≠ 0 ∧ a = .int i) → (¬ ∃ j : Int, j ≠ 0 ∧ b = .int j) →
      salaryText format job = ("Salary not disclosed", "Gaji tidak ditampilkan") := by
    intro ha hb
    simp [salaryText, hmin, hmax, formatCurrency_absent format a ha,
      formatCurrency_absent format b hb, stringTruthy]
  refine ⟨?_, ?_, ?_, neither, ?_, ?_⟩
  · rintro ⟨i, hi, ha⟩ ⟨j, hj, hb⟩
    subst ha hb
    exact salaryText_both format hformat job i j hi hj hmin hmax
  · rintro ⟨i, hi, ha⟩ hb
    subst ha
    have h1 := formatCurrency_present format hformat i hi
    simp [salaryText, hmin, hmax, h1.1, formatCurrency_absent format b hb, stringTruthy,
      hformat, stringTemplate]
  · rintro ha ⟨j, hj, hb⟩
    subst hb
    have h2 := formatCurrency_present format hformat j hj
    simp [salaryText, hmin, hmax, h2.1, formatCurrency_absent format a ha, stringTruthy,
      hformat, stringTemplate]
  · intro ha hb
    subst ha hb
    refine ⟨salaryText_both format hformat job 5000000 8000000 (by decide) (by decide)
      hmin hmax, ?_⟩
    rw [salaryText_both idrNumberFormat idrNumberFormat_ne_empty job 5000000 8000000
      (by decide) (by decide) hmin hmax]
    decide
  · intro ha hb
    apply neither
    · rintro ⟨i, hi, hai⟩
      rw [ha] at hai
      exact hi (JSNumber.int.inj hai).symm
    · rintro ⟨j, hj, hbj⟩
      rw [hb] at hbj
      exact hj (JSNumber.int.inj hbj).symm

/-- Witness of C11 (amended) with the model of the platform formatter: the job with salaries
5000000 and 8000000, and the job with only the lower salary 5000000. -/
theorem salaryText_by_presence_witness :
    (∀ v, idrNumberFormat v ≠ "") ∧
      salaryText idrNumberFormat
          { id := 3, title := "Cook", company := "Warung", company_id := 1,
            location := "Bandung", salary_min := .number (.int 5000000),
            salary_max := .number (.int 8000000), slots := 10, applied_count := 2,
            is_open := true, qualifications := "", description := "" } =
        ("Rp\u00a05.000.000 - Rp\u00a08.000.000", "Rp\u00a05.000.000 - Rp\u00a08.000.000") ∧
      salaryText idrNumberFormat
          { id := 3, title := "Cook", company := "Warung", company_id := 1,
            location := "Bandung", salary_min := .number (.int 5000000),
            salary_max := .number (.int 0), slots := 10, applied_count := 2,
            is_open := true, qualifications := "", description := "" } =
        ("From Rp\u00a05.000.000", "Mulai dari Rp\u00a05.000.000") :=
  ⟨idrNumberFormat_ne_empty,
    ((salaryText_by_presence idrNumberFormat idrNumberFormat_ne_empty
      { id := 3, title := "Cook", company := "Warung", company_id := 1,
        location := "Bandung", salary_min := .number (.int 5000000),
        salary_max := .number (.int 8000000), slots := 10, applied_count := 2,
        is_open := true, qualifications := "", description := "" }
      (.int 5000000) (.int 8000000) rfl rfl).2.2.2.2.1 rfl rfl).2,
    ((salaryText_by_presence idrNumberFormat idrNumberFormat_ne_empty
      { id := 3, title := "Cook", company := "Warung", company_id := 1,
        location := "Bandung", salary_min := .number (.int 5000000),
        salary_max := .number (.int 0), slots := 10, applied_count := 2,
        is_open := true, qualifications := "", description := "" }
      (.int 5000000) (.int 0) rfl rfl).2.1 ⟨5000000, by decide, rfl⟩
      (by rintro ⟨j, hj, hb⟩; exact hj (JSNumber.int.inj hb).symm)).trans (by decide)⟩

/-- C12 (counterexample): for null and for the empty text, which convert to the number 0
without being the number 0, formatCurrency does not give null but the text that the platform
formats them to; with the formatter modelled from the spec both give Rp0, and a job whose two
salaries are null is shown with the range Rp0 - Rp0. -/
theorem formatCurrency_null_and_empty_text :
    (∀ format : JSValue → String, formatCurrency format .null = some (format .null)) ∧
      (∀ format : JSValue → String,
        formatCurrency format (.str "") = some (format (.str ""))) ∧
      formatCurrency rupiahFormat .null = some "Rp0" ∧
      formatCurrency rupiahFormat (.str "") = some "Rp0" ∧
      salaryText rupiahFormat
          { id := 3, title := "Cook", company := "Warung", company_id := 1,
            location := "Bandung", salary_min := .null, salary_max := .null, slots := 10,
            applied_count := 2, is_open := true, qualifications := "", description := "" } =
        ("Rp0 - Rp0", "Rp0 - Rp0") := by
  refine ⟨?_, ?_, ?_, ?_, ?_⟩
  · intro format
    simp [formatCurrency, isNaN]
  · intro format
    have h : isNaN (.str "") = false := by decide
    simp [formatCurrency, h]
  · decide
  · decide
  · decide

/-- C12 (amended): for every amount that is the number 0 or that isNaN holds of, as it does of
NaN, of undefined and of a text that is not a number, formatCurrency gives null, which the
salary logic takes for an absent salary; for every non-zero number it gives the text of the
platform, which is not empty and which the salary logic takes for a present salary. -/
theorem formatCurrency_guard (format : JSValue → String) (hformat : ∀ v, format v ≠ "")
    (number : JSValue) :
    ((number = .number (.int 0) ∨ isNaN number = true) →
      formatCurrency format number = none ∧
      stringTruthy (formatCurrency format number) = false) ∧
    (∀ i : Int, i ≠ 0 → number = .number (.int i) →
      formatCurrency format number = some (format number) ∧ format number ≠ "" ∧
      stringTruthy (formatCurrency format number) = true) ∧
    (isNaN (.number .nan) = true ∧ isNaN .undefined = true ∧ isNaN (.str "abc") = true) := by
  refine ⟨?_, ?_, ?_⟩
  · intro h
    have hnone : formatCurrency format number = none := by
      rcases h with h | h
      · simp [formatCurrency, h]
      · simp [formatCurrency, h]
    rw [hnone]
    exact ⟨rfl, rfl⟩
  · intro i hi hnum
    subst hnum
    have h := formatCurrency_present format hformat i hi
    exact ⟨h.1, hformat _, h.2⟩
  · decide

/-- Witness of C12 (amended) with the formatter modelled from the spec: the text abc and the
amount 5000000. -/
theorem formatCurrency_guard_witness :
    (∀ v, rupiahFormat v ≠ "") ∧
      (isNaN (.str "abc") = true ∧ formatCurrency rupiahFormat (.str "abc") = none) ∧
      ((5000000 : Int) ≠ 0 ∧
        formatCurrency rupiahFormat (.number (.int 5000000)) = some "Rp5.000.000") :=
  ⟨rupiahFormat_ne_empty,
    ⟨by decide,
      ((formatCurrency_guard rupiahFormat rupiahFormat_ne_empty (.str "abc")).1
        (Or.inr (by decide))).1⟩,
    by decide,
    ((formatCurrency_guard rupiahFormat rupiahFormat_ne_empty (.number (.int 5000000))).2.1
      5000000 (by decide) rfl).1⟩

/-! ## Theorems: form validators -/

/-- C13: the apply form is submitted (the default is not prevented) exactly when the trimmed
cover letter has at least 50 characters, a CV file is attached, its declared type includes
pdf, its size is at most 10 * 1024 * 1024 bytes and the user accepts the confirmation; the
confirmation is asked exactly when the four rules pass; a trimmed cover letter of 49
characters always blocks, and one of exactly 50 characters with a valid file is blocked by
no rule: the confirmation is asked and the answer alone decides. -/
theorem applyFormSubmit_proceeds_iff (coverLetter : String) (cvFile : Option File)
    (confirmAnswer : Bool) :
    ((applyFormSubmit coverLetter cvFile confirmAnswer).defaultPrevented = false ↔
      (50 ≤ jsLength (jsTrim coverLetter) ∧
        ∃ file, cvFile = some file ∧ includes file.type "pdf" = true ∧
          file.size ≤ 10 * 1024 * 1024 ∧ confirmAnswer = true)) ∧
    ((applyFormSubmit coverLetter cvFile confirmAnswer).confirm.isSome = true ↔
      (50 ≤ jsLength (jsTrim coverLetter) ∧
        ∃ file, cvFile = some file ∧ includes file.type "pdf" = true ∧
          file.size ≤ 10 * 1024 * 1024)) ∧
    (jsLength (jsTrim coverLetter) = 49 →
      (applyFormSubmit coverLetter cvFile confirmAnswer).defaultPrevented = true) ∧
    (jsLength (jsTrim coverLetter) = 50 →
      ∀ file, cvFile = some file → includes file.type "pdf" = true →
        file.size ≤ 10 * 1024 * 1024 →
        (applyFormSubmit coverLetter cvFile confirmAnswer).alert = none ∧
        (applyFormSubmit coverLetter cvFile confirmAnswer).confirm.isSome = true ∧
        (applyFormSubmit coverLetter cvFile confirmAnswer).defaultPrevented =
          !confirmAnswer) := by
  have hmax : maxSize = 10 * 1024 * 1024 := rfl
  refine ⟨?_, ?_, ?_, ?_⟩
  · cases cvFile with
    | none => simp [applyFormSubmit]
    | some file =>
      by_cases hs : file.size > maxSize
      · have : ¬ file.size ≤ 10 * 1024 * 1024 := by omega
        simp [applyFormSubmit, hs, this]
      · have hle : file.size ≤ 10 * 1024 * 1024 := by omega
        by_cases hp : includes file.type "pdf" = true
        · by_cases hl : jsLength (jsTrim coverLetter) < 50
          · have : ¬ 50 ≤ jsLength (jsTrim coverLetter) := by omega
            simp [applyFormSubmit, hs, hp, hl, this]
          · have : 50 ≤ jsLength (jsTrim coverLetter) := by omega
            simp [applyFormSubmit, hs, hp, hl, this, hle]
        · simp [applyFormSubmit, hs, hp]
  · cases cvFile with
    | none => simp [applyFormSubmit]
    | some file =>
      by_cases hs : file.size > maxSize
      · have : ¬ file.size ≤ 10 * 1024 * 1024 := by omega
        simp [applyFormSubmit, hs, this]
      · have hle : file.size ≤ 10 * 1024 * 1024 := by omega
        by_cases hp : includes file.type "pdf" = true
        · by_cases hl : jsLength (jsTrim coverLetter) < 50
          · have : ¬ 50 ≤ jsLength (jsTrim coverLetter) := by omega
            simp [applyFormSubmit, hs, hp, hl, this]
          · have : 50 ≤ jsLength (jsTrim coverLetter) := by omega
            simp [applyFormSubmit, hs, hp, hl, this, hle]
        · simp [applyFormSubmit, hs, hp]
  · intro h49
    cases cvFile with
    | none => simp [applyFormSubmit]
    | some file =>
      by_cases hs : file.size > maxSize
      · simp [applyFormSubmit, hs]
      · by_cases hp : includes file.type "pdf" = true
        · simp [applyFormSubmit, hs, hp, h49]
        · simp [applyFormSubmit, hs, hp]
  · intro h50 file hfile hp hle
    have hs : ¬ file.size > maxSize := by omega
    subst hfile
    simp [applyFormSubmit, hs, hp, h50]

/-- Witness of C13: a cover letter of 50 letters between blanks and a PDF of 2048 bytes, with
the confirmation accepted, is submitted; with one letter fewer it is blocked. -/
theorem applyFormSubmit_proceeds_iff_witness :
    (applyFormSubmit ("  " ++ String.mk (List.replicate 50 'a') ++ " ")
        (some ⟨"application/pdf", 2048⟩) true).defaultPrevented = false ∧
      (jsLength (jsTrim ("  " ++ String.mk (List.replicate 49 'a') ++ " ")) = 49 ∧
        (applyFormSubmit ("  " ++ String.mk (List.replicate 49 'a') ++ " ")
          (some ⟨"application/pdf", 2048⟩) true).defaultPrevented = true) :=
  ⟨(applyFormSubmit_proceeds_iff ("  " ++ String.mk (List.replicate 50 'a') ++ " ")
      (some ⟨"application/pdf", 2048⟩) true).1.mpr
      ⟨by decide, ⟨"application/pdf", 2048⟩, rfl, by decide, by decide, rfl⟩,
    by decide,
    (applyFormSubmit_proceeds_iff ("  " ++ String.mk (List.replicate 49 'a') ++ " ")
      (some ⟨"application/pdf", 2048⟩) true).2.2.1 (by decide)⟩

/-- C14: the code at the failing inputs.  With an empty cover letter and no CV the first
violated rule in the stated order is the cover letter, yet the alert of the submit listener is
the message of the missing CV.  With a valid cover letter and a PNG file of 20 MB the first
violated rule in the stated order is the PDF rule, yet the alert of the submit listener is the
message of the size rule, while the change listener of the same file input, which tests the
two file rules in the stated order, alerts the PDF message for that file. -/
theorem applyFormSubmit_alert_is_not_first_violated :
    (firstViolatedRuleMessage "" none =
        some "Please write a more detailed cover letter (at least 50 characters)." ∧
      (applyFormSubmit "" none true).alert = some (.str "Please upload your CV file.")) ∧
    (firstViolatedRuleMessage (String.mk (List.replicate 50 'a'))
          (some ⟨"image/png", 20 * 1024 * 1024⟩) = some "Only PDF files are allowed." ∧
      (applyFormSubmit (String.mk (List.replicate 50 'a'))
          (some ⟨"image/png", 20 * 1024 * 1024⟩) true).alert =
        some (.str "File size must be less than 10MB. Your file is too large.") ∧
      cvFileChange (some ⟨"image/png", 20 * 1024 * 1024⟩) =
        some "Only PDF files are allowed.") := by
  decide

/-- C15: with the current language en or id, the add-job form is submitted exactly when title,
location and description are non-empty after trimming, the trimmed description has at least
20 characters and the user accepts the confirmation; if one of the three is empty after
trimming the alert is the fill_fields text of the current language, and otherwise, if the
trimmed description is shorter than 20 characters, it is the description_short text of the
current language. -/
theorem addJobFormSubmit_en_id (nk_lang : Option String) (title location description : String)
    (confirmAnswer : Bool)
    (hlang : currentLang nk_lang = "en" ∨ currentLang nk_lang = "id") :
    ((addJobFormSubmit nk_lang title location description confirmAnswer).defaultPrevented
        = false ↔
      (jsTrim title ≠ "" ∧ jsTrim location ≠ "" ∧ jsTrim description ≠ "" ∧
        20 ≤ jsLength (jsTrim description) ∧ confirmAnswer = true)) ∧
    ((jsTrim title = "" ∨ jsTrim location = "" ∨ jsTrim description = "") →
      (addJobFormSubmit nk_lang title location description confirmAnswer).alert =
        some (.str (if currentLang nk_lang = "en" then "Please fill in all required fields."
          else "Harap isi semua bidang yang wajib diisi."))) ∧
    (¬ (jsTrim title = "" ∨ jsTrim location = "" ∨ jsTrim description = "") →
      jsLength (jsTrim description) < 20 →
      (addJobFormSubmit nk_lang title location description confirmAnswer).alert =
        some (.str (if currentLang nk_lang = "en" then
          "Please provide a more detailed job description (at least 20 characters)."
          else
          "Harap berikan deskripsi pekerjaan yang lebih detail (minimal 20 karakter)."))) := by
  by_cases hempty : jsTrim title = "" ∨ jsTrim location = "" ∨ jsTrim description = ""
  · have hnot : ¬ (jsTrim title ≠ "" ∧ jsTrim location ≠ "" ∧ jsTrim description ≠ "" ∧
        20 ≤ jsLength (jsTrim description) ∧ confirmAnswer = true) := by
      rintro ⟨h1, h2, h3, -, -⟩
      rcases hempty with h | h | h
      · exact h1 h
      · exact h2 h
      · exact h3 h
    rcases hlang with hl | hl
    · simp [addJobFormSubmit, hempty, hl, messages, withMessage, hnot]
    · simp [addJobFormSubmit, hempty, hl, messages, withMessage, hnot]
  · have h3 : jsTrim title ≠ "" ∧ jsTrim location ≠ "" ∧ jsTrim description ≠ "" := by
      refine ⟨fun h => hempty (Or.inl h), fun h => hempty (Or.inr (Or.inl h)),
        fun h => hempty (Or.inr (Or.inr h))⟩
    by_cases hshort : jsLength (jsTrim description) < 20
    · have hnot : ¬ 20 ≤ jsLength (jsTrim description) := by omega
      rcases hlang with hl | hl
      · simp [addJobFormSubmit, hempty, hl, messages, withMessage, hshort, hnot]
      · simp [addJobFormSubmit, hempty, hl, messages, withMessage, hshort, hnot]
    · have hlong : 20 ≤ jsLength (jsTrim description) := by omega
      rcases hlang with hl | hl
      · simp [addJobFormSubmit, hempty, hl, messages, withMessage, hshort, hlong, h3]
      · simp [addJobFormSubmit, hempty, hl, messages, withMessage, hshort, hlong, h3]

/-- Witness of C15 with the stored language id: a blank location, a description of 9
characters, and a complete form whose confirmation is accepted. -/
theorem addJobFormSubmit_en_id_witness :
    (currentLang (some "id") = "en" ∨ currentLang (some "id") = "id") ∧
      (addJobFormSubmit (some "id") "Cook" "   " "Cooks rice all day long" true).alert =
        some (.str "Harap isi semua bidang yang wajib diisi.") ∧
      (addJobFormSubmit (some "id") "Cook" "Bandung" " Cook rice " true).alert =
        some (.str
          "Harap berikan deskripsi pekerjaan yang lebih detail (minimal 20 karakter).") ∧
      (addJobFormSubmit (some "id") "Cook" "Bandung" "Cooks rice all day long"
        true).defaultPrevented = false :=
  ⟨Or.inr rfl,
    (addJobFormSubmit_en_id (some "id") "Cook" "   " "Cooks rice all day long" true
      (Or.inr rfl)).2.1 (by decide),
    (addJobFormSubmit_en_id (some "id") "Cook" "Bandung" " Cook rice " true
      (Or.inr rfl)).2.2 (by decide) (by decide),
    (addJobFormSubmit_en_id (some "id") "Cook" "Bandung" "Cooks rice all day long" true
      (Or.inr rfl)).1.mpr (by decide)⟩

/-! ## Theorems: language toggle -/

/-- Membership in a class list after `classList.remove`. -/
theorem mem_classListRemove (tokens classList : List String) (x : String) :
    x ∈ classListRemove tokens classList ↔ x ∈ classList ∧ x ∉ tokens := by
  simp [classListRemove]

/-- Membership in a class list after `classList.add`. -/
theorem mem_classListAdd (tokens classList : List String) (x : String) :
    x ∈ classListAdd tokens classList ↔ x ∈ classList ∨ x ∈ tokens := by
  unfold classListAdd
  induction tokens generalizing classList with
  | nil => simp
  | cons t ts ih =>
    rw [List.foldl_cons, ih]
    by_cases ht : t ∈ classList
    · simp only [ht, if_true, List.mem_cons]
      constructor
      · rintro (h | h)
        · exact Or.inl h
        · exact Or.inr (Or.inr h)
      · rintro (h | h | h)
        · exact Or.inl h
        · exact Or.inl (h ▸ ht)
        · exact Or.inr h
    · simp only [ht, if_false, List.mem_append, List.mem_singleton, List.mem_cons]
      tauto

/-- Adding tokens that are all present changes nothing. -/
theorem classListAdd_of_mem (tokens classList : List String)
    (h : ∀ t ∈ tokens, t ∈ classList) : classListAdd tokens classList = classList := by
  unfold classListAdd
  induction tokens generalizing classList with
  | nil => rfl
  | cons t ts ih =>
    rw [List.foldl_cons]
    have ht : t ∈ classList := h t (List.mem_cons_self _ _)
    simp only [ht, if_true]
    exact ih classList (fun u hu => h u (List.mem_cons_of_mem _ hu))

/-- The text `_en` and the text `_id` cannot both end one identifier. -/
theorem endsWith_en_id_exclusive (id : String) :
    ¬ (endsWith id "_en" = true ∧ endsWith id "_id" = true) := by
  rintro ⟨h1, h2⟩
  simp only [endsWith, decide_eq_true_eq] at h1 h2
  have hsuf := List.suffix_of_suffix_length_le h1 h2 (by decide)
  have heq := hsuf.eq_of_length (by decide)
  exact absurd heq (by decide)

/-- The visibility callback keeps the attributes of an element. -/
theorem toggleLangElement_attributes (lang : String) (el : Element) :
    (toggleLangElement lang el).attributes = el.attributes := by
  unfold toggleLangElement
  split
  · rfl
  · split_ifs <;> rfl

/-- The visibility callback acts on the class list in one of three ways that the
attributes and the language fix: not at all, by removing the two classes, or by adding them. -/
theorem toggleLangElement_cases (lang : String) (attributes : List (String × String)) :
    (∀ classList, toggleLangElement lang ⟨classList, attributes⟩ = ⟨classList, attributes⟩) ∨
    (∀ classList, toggleLangElement lang ⟨classList, attributes⟩ =
      ⟨classListRemove ["d-none", "hidden"] classList, attributes⟩) ∨
    (∀ classList, toggleLangElement lang ⟨classList, attributes⟩ =
      ⟨classListAdd ["d-none", "hidden"] classList, attributes⟩) := by
  unfold toggleLangElement Element.getAttribute
  cases hfind : (attributes.find? fun a => a.1 == "data-i18n") with
  | none => left; intro cl; simp [hfind]
  | some a =>
    simp only [hfind, Option.map_some']
    by_cases h1 : (endsWith a.2 "_en" || endsWith a.2 "_id") = true
    · by_cases hen : lang = "en"
      · by_cases h2 : endsWith a.2 "_en" = true
        · right; left; intro cl; simp [h1, hen, h2]
        · by_cases h3 : endsWith a.2 "_id" = true
          · right; right; intro cl; simp [h1, hen, h2, h3]
          · left; intro cl; simp [h1, hen, h2, h3]
      · by_cases hid : lang = "id"
        · by_cases h3 : endsWith a.2 "_id" = true
          · right; left; intro cl; simp [h1, hen, hid, h3]
          · by_cases h2 : endsWith a.2 "_en" = true
            · right; right; intro cl; simp [h1, hen, hid, h2, h3]
            · left; intro cl; simp [h1, hen, hid, h2, h3]
        · left; intro cl; simp [h1, hen, hid]
    · left; intro cl; simp [h1]

/-- The visibility callback keeps every class other than the two visibility classes. -/
theorem mem_toggleLangElement (lang : String) (el : Element) (x : String)
    (h1 : x ≠ "d-none") (h2 : x ≠ "hidden") :
    x ∈ (toggleLangElement lang el).classList ↔ x ∈ el.classList := by
  rcases toggleLangElement_cases lang el.attributes with h | h | h
  · rw [show el = ⟨el.classList, el.attributes⟩ from rfl, h]
  · rw [show el = ⟨el.classList, el.attributes⟩ from rfl, h]
    simp [mem_classListRemove, h1, h2]
  · rw [show el = ⟨el.classList, el.attributes⟩ from rfl, h]
    simp [mem_classListAdd, h1, h2]

/-- Removing the class active from a language option is such a step. -/
theorem afterActiveSteps_clear (el : Element) :
    afterActiveSteps el (clearActiveElement el) := by
  unfold clearActiveElement
  by_cases h : el.classList.contains "lang-option" = true
  · rw [if_pos h]
    refine ⟨rfl, ?_, ?_⟩
    · intro x hx
      simp [mem_classListRemove, hx]
    · intro hno
      exact absurd (by simpa using h) hno
  · rw [if_neg h]
    exact ⟨rfl, fun _ _ => Iff.rfl, fun _ => rfl⟩

/-- Adding the class active to a language option after such a step is such a step. -/
theorem afterActiveSteps_add (lang : String) (el el' : Element) (h : afterActiveSteps el el')
    (hopt : isLangOption lang el' = true) :
    afterActiveSteps el { el' with classList := classListAdd ["active"] el'.classList } := by
  obtain ⟨hattr, hmem, _⟩ := h
  refine ⟨hattr, ?_, ?_⟩
  · intro x hx
    rw [← hmem x hx]
    simp [mem_classListAdd, hx]
  · intro hno
    have hin : "lang-option" ∈ el'.classList := by
      simp only [isLangOption, Bool.and_eq_true] at hopt
      simpa using hopt.1
    exact absurd ((hmem "lang-option" (by decide)).mp hin) hno

/-- Every element is related to its state after the step that clears the class active. -/
theorem forall₂_clearActive (elements : List Element) :
    List.Forall₂ afterActiveSteps elements (clearActive elements) := by
  induction elements with
  | nil => exact List.Forall₂.nil
  | cons el rest ih => exact List.Forall₂.cons (afterActiveSteps_clear el) ih

/-- Marking the active option keeps the relation. -/
theorem forall₂_markActive (lang : String) (before after : List Element)
    (h : List.Forall₂ afterActiveSteps before after) :
    List.Forall₂ afterActiveSteps before (markActive lang after) := by
  induction h with
  | nil => exact List.Forall₂.nil
  | cons hhead htail ih =>
    rename_i el el' rest rest'
    unfold markActive
    by_cases hopt : isLangOption lang el' = true
    · rw [if_pos hopt]
      exact List.Forall₂.cons (afterActiveSteps_add lang el el' hhead hopt) htail
    · rw [if_neg hopt]
      exact List.Forall₂.cons hhead ih

/-- The elements after `toggleLang` are, position by position, the elements after the
visibility step up to the class active of language options. -/
theorem forall₂_toggleLang (lang : String) (page : Page) :
    List.Forall₂ (fun el el' => afterActiveSteps (toggleLangElement lang el) el')
      page.elements (toggleLang lang page).elements := by
  have h := forall₂_markActive lang _ _
    (forall₂_clearActive (toggleLangVisibility lang page.elements))
  unfold toggleLangVisibility at h
  rw [List.forall₂_map_left_iff] at h
  exact h

/-- Related lists relate the elements that stand at the same position. -/
theorem forall₂_at {R : Element → Element → Prop} {before after : List Element}
    (h : List.Forall₂ R before after) (k : Nat) (el el' : Element)
    (hk : before[k]? = some el) (hk' : after[k]? = some el') : R el el' := by
  induction h generalizing k with
  | nil => simp at hk
  | cons hhead _ ih =>
    cases k with
    | zero =>
      simp only [List.getElem?_cons_zero, Option.some.injEq] at hk hk'
      rw [← hk, ← hk']
      exact hhead
    | succ n =>
      simp only [List.getElem?_cons_succ] at hk hk'
      exact ih n hk hk'

/-- C16: with lang en or id, toggleLang(lang) keeps the number of elements, and for the element
at any position before and after the call: its attributes are kept; if its data-i18n
identifier ends in the suffix of lang it carries neither d-none nor hidden afterwards; if the
identifier ends in the suffix of the other language it carries both afterwards; and if the
identifier ends in neither suffix the visibility step leaves it as it is, and so does the whole
of toggleLang unless the element is a language option (whose class active a later step
resets). -/
theorem toggleLang_visibility (lang : String) (hlang : lang = "en" ∨ lang = "id")
    (page : Page) :
    (toggleLang lang page).elements.length = page.elements.length ∧
    ∀ (k : Nat) (el el' : Element), page.elements[k]? = some el →
      (toggleLang lang page).elements[k]? = some el' →
      el'.attributes = el.attributes ∧
      ∀ id, el.getAttribute "data-i18n" = some id →
        (endsWith id (if lang = "en" then "_en" else "_id") = true →
          "d-none" ∉ el'.classList ∧ "hidden" ∉ el'.classList) ∧
        (endsWith id (if lang = "en" then "_id" else "_en") = true →
          "d-none" ∈ el'.classList ∧ "hidden" ∈ el'.classList) ∧
        (endsWith id "_en" = false → endsWith id "_id" = false →
          toggleLangElement lang el = el ∧ ("lang-option" ∉ el.classList → el' = el)) := by
  refine ⟨(forall₂_toggleLang lang page).length_eq.symm, ?_⟩
  intro k el el' hk hk'
  obtain ⟨hattr, hmem, hsame⟩ := forall₂_at (forall₂_toggleLang lang page) k el el' hk hk'
  refine ⟨hattr.trans (toggleLangElement_attributes lang el), ?_⟩
  intro id hid
  have hlo : "lang-option" ∉ el.classList →
      "lang-option" ∉ (toggleLangElement lang el).classList :=
    fun h h' => h ((mem_toggleLangElement lang el "lang-option" (by decide) (by decide)).mp h')
  have hexcl := endsWith_en_id_exclusive id
  have hd := hmem "d-none" (by decide)
  have hh := hmem "hidden" (by decide)
  refine ⟨?_, ?_, ?_⟩
  · intro hown
    have hv : (toggleLangElement lang el).classList =
        classListRemove ["d-none", "hidden"] el.classList := by
      rcases hlang with hl | hl
      · subst hl
        simp only [if_true] at hown
        simp [toggleLangElement, hid, hown]
      · subst hl
        simp only [show ¬ ("id" = "en") by decide, if_false] at hown
        simp [toggleLangElement, hid, hown]
    rw [hd, hh, hv]
    simp [mem_classListRemove]
  · intro hother
    have hv : (toggleLangElement lang el).classList =
        classListAdd ["d-none", "hidden"] el.classList := by
      rcases hlang with hl | hl
      · subst hl
        simp only [if_true] at hother
        have hen : endsWith id "_en" = false := by
          cases h : endsWith id "_en"
          · rfl
          · exact absurd ⟨h, hother⟩ hexcl
        simp [toggleLangElement, hid, hother, hen]
      · subst hl
        simp only [show ¬ ("id" = "en") by decide, if_false] at hother
        have hidf : endsWith id "_id" = false := by
          cases h : endsWith id "_id"
          · rfl
          · exact absurd ⟨hother, h⟩ hexcl
        simp [toggleLangElement, hid, hother, hidf]
    rw [hd, hh, hv]
    simp [mem_classListAdd]
  · intro hen hidf
    have hv : toggleLangElement lang el = el := by
      simp [toggleLangElement, hid, hen, hidf]
    exact ⟨hv, fun hno => (hsame (hlo hno)).trans hv⟩

/-- Witness of C16 on a page with an English text, its hidden Indonesian twin, a text with
another suffix and the two language options, switched to id: the English text at position 0
ends hidden and the Indonesian text at position 1 ends shown. -/
theorem toggleLang_visibility_witness :
    ("id" = "en" ∨ "id" = "id") ∧
      (("d-none" ∈ ["title", "d-none", "hidden"] ∧ "hidden" ∈ ["title", "d-none", "hidden"]) ∧
        ("d-none" ∉ ["title"] ∧ "hidden" ∉ ["title"])) :=
  have h := (toggleLang_visibility "id" (Or.inr rfl)
    ⟨[⟨["title"], [("data-i18n", "hero_en")]⟩,
      ⟨["title", "d-none"], [("data-i18n", "hero_id")]⟩,
      ⟨["note", "hidden"], [("data-i18n", "hero_fr")]⟩,
      ⟨["lang-option", "active"], [("data-lang", "en")]⟩,
      ⟨["lang-option"], [("data-lang", "id")]⟩], "en", some "id", []⟩).2
  ⟨Or.inr rfl,
    ((h 0 ⟨["title"], [("data-i18n", "hero_en")]⟩
      ⟨["title", "d-none", "hidden"], [("data-i18n", "hero_en")]⟩ rfl (by decide)).2
      "hero_en" (by decide)).2.1 (by decide),
    ((h 1 ⟨["title", "d-none"], [("data-i18n", "hero_id")]⟩
      ⟨["title"], [("data-i18n", "hero_id")]⟩ rfl (by decide)).2
      "hero_id" (by decide)).1 (by decide)⟩

/-- Removing the class active twice is removing it once. -/
theorem classListRemove_idem (tokens classList : List String) :
    classListRemove tokens (classListRemove tokens classList) =
      classListRemove tokens classList := by
  simp [classListRemove, List.filter_filter]

/-- Two removals can be exchanged. -/
theorem classListRemove_comm (s t classList : List String) :
    classListRemove s (classListRemove t classList) =
      classListRemove t (classListRemove s classList) := by
  simp only [classListRemove, List.filter_filter]
  congr 1
  funext c
  exact Bool.and_comm _ _

/-- The action of the visibility callback on a class list, with the facts about it that the
later steps rely on. -/
theorem toggleLangElement_action (lang : String) (attributes : List (String × String)) :
    ∃ act : List String → List String,
      (∀ cl, toggleLangElement lang ⟨cl, attributes⟩ = ⟨act cl, attributes⟩) ∧
      (∀ cl, "lang-option" ∈ act cl ↔ "lang-option" ∈ cl) ∧
      (∀ cl, act (act cl) = act cl) ∧
      (∀ cl, act (classListRemove ["active"] (act cl)) = classListRemove ["active"] (act cl)) ∧
      (∀ cl, act (classListRemove ["active"] (act cl) ++ ["active"]) =
        classListRemove ["active"] (act cl) ++ ["active"]) := by
  rcases toggleLangElement_cases lang attributes with h | h | h
  · exact ⟨id, h, fun _ => Iff.rfl, fun _ => rfl, fun _ => rfl, fun _ => rfl⟩
  · refine ⟨classListRemove ["d-none", "hidden"], h, ?_, ?_, ?_, ?_⟩
    · intro cl
      simp [mem_classListRemove]
    · intro cl
      exact classListRemove_idem _ _
    · intro cl
      rw [classListRemove_comm, classListRemove_idem]
    · intro cl
      have h1 : classListRemove ["d-none", "hidden"]
          (classListRemove ["active"] (classListRemove ["d-none", "hidden"] cl)) =
          classListRemove ["active"] (classListRemove ["d-none", "hidden"] cl) := by
        rw [classListRemove_comm, classListRemove_idem]
      conv_lhs => rw [classListRemove, List.filter_append]
      rw [← classListRemove, h1]
      simp
  · refine ⟨classListAdd ["d-none", "hidden"], h, ?_, ?_, ?_, ?_⟩
    · intro cl
      simp [mem_classListAdd]
    · intro cl
      apply classListAdd_of_mem
      intro t ht
      rw [mem_classListAdd]
      exact Or.inr ht
    · intro cl
      apply classListAdd_of_mem
      intro t ht
      rw [mem_classListRemove, mem_classListAdd]
      refine ⟨Or.inr ht, ?_⟩
      simp only [List.mem_cons, List.mem_singleton, List.not_mem_nil, or_false] at ht ⊢
      rcases ht with ht | ht <;> rw [ht] <;> decide
    · intro cl
      apply classListAdd_of_mem
      intro t ht
      rw [List.mem_append, mem_classListRemove, mem_classListAdd]
      left
      refine ⟨Or.inr ht, ?_⟩
      simp only [List.mem_cons, List.mem_singleton, List.not_mem_nil, or_false] at ht ⊢
      rcases ht with ht | ht <;> rw [ht] <;> decide

/-- Clearing the class active on a class list. -/
theorem clearActiveElement_mk (cl : List String) (attributes : List (String × String)) :
    clearActiveElement ⟨cl, attributes⟩ =
      if "lang-option" ∈ cl then ⟨classListRemove ["active"] cl, attributes⟩
      else ⟨cl, attributes⟩ := by
  simp [clearActiveElement]

/-- Whether an element is the language option of `lang` rests on its attributes and on the
class lang-option alone. -/
theorem isLangOption_mk (lang : String) (cl cl' : List String)
    (attributes : List (String × String))
    (h : "lang-option" ∈ cl' ↔ "lang-option" ∈ cl) :
    isLangOption lang ⟨cl', attributes⟩ = isLangOption lang ⟨cl, attributes⟩ := by
  simp only [isLangOption, Element.getAttribute]
  congr 1
  by_cases hc : "lang-option" ∈ cl
  · simp [hc, h.mpr hc]
  · have hc' : "lang-option" ∉ cl' := fun h' => hc (h.mp h')
    simp [hc, hc']

/-- The visibility step followed by the clearing step, on one element. -/
theorem clear_toggle_mk (lang : String) (act : List String → List String)
    (attributes : List (String × String))
    (hact : ∀ cl, toggleLangElement lang ⟨cl, attributes⟩ = ⟨act cl, attributes⟩)
    (hlo : ∀ cl, "lang-option" ∈ act cl ↔ "lang-option" ∈ cl) (cl : List String) :
    clearActiveElement (toggleLangElement lang ⟨cl, attributes⟩) =
      if "lang-option" ∈ cl then ⟨classListRemove ["active"] (act cl), attributes⟩
      else ⟨act cl, attributes⟩ := by
  rw [hact, clearActiveElement_mk]
  simp only [hlo]

/-- The two steps leave the test for the language option of `lang` as it is. -/
theorem isLangOption_clear_toggle (lang : String) (el : Element) :
    isLangOption lang (clearActiveElement (toggleLangElement lang el)) =
      isLangOption lang el := by
  obtain ⟨cl, attributes⟩ := el
  obtain ⟨act, hact, hlo, -, -, -⟩ := toggleLangElement_action lang attributes
  rw [clear_toggle_mk lang act attributes hact hlo]
  by_cases h : "lang-option" ∈ cl
  · rw [if_pos h]
    apply isLangOption_mk
    simp [mem_classListRemove, hlo]
  · rw [if_neg h]
    apply isLangOption_mk
    exact hlo cl

/-- The two steps, run twice on an element, give what they give when run once. -/
theorem clear_toggle_idem (lang : String) (el : Element) :
    clearActiveElement (toggleLangElement lang
        (clearActiveElement (toggleLangElement lang el))) =
      clearActiveElement (toggleLangElement lang el) := by
  obtain ⟨cl, attributes⟩ := el
  obtain ⟨act, hact, hlo, hidem, hclear, -⟩ := toggleLangElement_action lang attributes
  rw [clear_toggle_mk lang act attributes hact hlo cl]
  by_cases h : "lang-option" ∈ cl
  · rw [if_pos h, clear_toggle_mk lang act attributes hact hlo]
    have h' : "lang-option" ∈ classListRemove ["active"] (act cl) := by
      simp [mem_classListRemove, hlo, h]
    rw [if_pos h', hclear, classListRemove_idem]
  · rw [if_neg h, clear_toggle_mk lang act attributes hact hlo]
    have h' : "lang-option" ∉ act cl := fun hin => h ((hlo cl).mp hin)
    rw [if_neg h', hidem]

/-- On the language option of `lang`, the two steps undo the class active that the marking
step added after them. -/
theorem clear_toggle_add (lang : String) (el : Element)
    (hopt : isLangOption lang (clearActiveElement (toggleLangElement lang el)) = true) :
    clearActiveElement (toggleLangElement lang
        { clearActiveElement (toggleLangElement lang el) with
          classList := classListAdd ["active"]
            (clearActiveElement (toggleLangElement lang el)).classList }) =
      clearActiveElement (toggleLangElement lang el) := by
  rw [isLangOption_clear_toggle] at hopt
  obtain ⟨cl, attributes⟩ := el
  obtain ⟨act, hact, hlo, hidem, hclear, hadd⟩ := toggleLangElement_action lang attributes
  have h : "lang-option" ∈ cl := by
    simp only [isLangOption, Bool.and_eq_true] at hopt
    simpa using hopt.1
  rw [clear_toggle_mk lang act attributes hact hlo cl, if_pos h]
  have hno : "active" ∉ classListRemove ["active"] (act cl) := by
    simp [mem_classListRemove]
  have hadd1 : classListAdd ["active"] (classListRemove ["active"] (act cl)) =
      classListRemove ["active"] (act cl) ++ ["active"] := by
    simp [classListAdd, hno]
  show clearActiveElement (toggleLangElement lang
      ⟨classListAdd ["active"] (classListRemove ["active"] (act cl)), attributes⟩) = _
  rw [hadd1, clear_toggle_mk lang act attributes hact hlo]
  have h' : "lang-option" ∈ classListRemove ["active"] (act cl) ++ ["active"] := by
    simp [mem_classListRemove, hlo, h]
  rw [if_pos h', hadd]
  have hsplit : classListRemove ["active"] (classListRemove ["active"] (act cl) ++ ["active"]) =
      classListRemove ["active"] (classListRemove ["active"] (act cl)) := by
    simp [classListRemove, List.filter_append]
  rw [hsplit, classListRemove_idem]

/-- Adding the class active leaves the test for the language option of `lang` as it is. -/
theorem isLangOption_add (lang : String) (el : Element) :
    isLangOption lang { el with classList := classListAdd ["active"] el.classList } =
      isLangOption lang el := by
  obtain ⟨cl, attributes⟩ := el
  apply isLangOption_mk
  simp [mem_classListAdd]

/-- The class steps of `toggleLang`, run twice on a list of elements, give what they give
when run once. -/
theorem toggleLang_steps_idem (lang : String) (elements : List Element) :
    markActive lang (clearActive (toggleLangVisibility lang
        (markActive lang (clearActive (toggleLangVisibility lang elements))))) =
      markActive lang (clearActive (toggleLangVisibility lang elements)) := by
  have hmap : ∀ l : List Element, clearActive (toggleLangVisibility lang l) =
      l.map (fun el => clearActiveElement (toggleLangElement lang el)) := by
    intro l
    simp [clearActive, toggleLangVisibility, List.map_map]
  simp only [hmap]
  induction elements with
  | nil => rfl
  | cons el rest ih =>
    simp only [List.map_cons, markActive]
    by_cases hopt : isLangOption lang (clearActiveElement (toggleLangElement lang el)) = true
    · simp only [if_pos hopt, List.map_cons, markActive]
      have hopt2 : isLangOption lang (clearActiveElement (toggleLangElement lang
          { clearActiveElement (toggleLangElement lang el) with
            classList := classListAdd ["active"]
              (clearActiveElement (toggleLangElement lang el)).classList })) = true := by
        rw [isLangOption_clear_toggle, isLangOption_add]
        exact hopt
      rw [if_pos hopt2, clear_toggle_add lang el hopt, List.map_map]
      congr 1
      apply List.map_congr_left
      intro e _
      exact clear_toggle_idem lang e
    · simp only [if_neg hopt, List.map_cons, markActive]
      have hopt2 : ¬ isLangOption lang (clearActiveElement (toggleLangElement lang
          (clearActiveElement (toggleLangElement lang el)))) = true := by
        rw [isLangOption_clear_toggle]
        exact hopt
      rw [if_neg hopt2, clear_toggle_idem, ih]

/-- The visibility callback, run twice on an element, gives what it gives when run once. -/
theorem toggleLangElement_idem (lang : String) (el : Element) :
    toggleLangElement lang (toggleLangElement lang el) = toggleLangElement lang el := by
  obtain ⟨cl, attributes⟩ := el
  obtain ⟨act, hact, -, hidem, -, -⟩ := toggleLangElement_action lang attributes
  rw [hact, hact, hidem]

/-- C17: for every language argument, the visibility step of toggleLang run twice gives exactly
the class lists it gives when run once; and for an argument that keeps the selector text
intact, toggleLang(lang) called twice leaves every element of the page with exactly the class
list it has after one call. -/
theorem toggleLang_twice (lang : String) (page : Page) :
    toggleLangVisibility lang (toggleLangVisibility lang page.elements) =
        toggleLangVisibility lang page.elements ∧
      (selectorSafe lang = true →
        (toggleLang lang (toggleLang lang page)).elements = (toggleLang lang page).elements) := by
  constructor
  · simp only [toggleLangVisibility, List.map_map]
    apply List.map_congr_left
    intro el _
    exact toggleLangElement_idem lang el
  · intro _
    exact toggleLang_steps_idem lang page.elements

/-- Witness of C17: the language id on a page with an English text, its hidden Indonesian
twin and the two language options. -/
theorem toggleLang_twice_witness :
    selectorSafe "id" = true ∧
      (toggleLang "id" (toggleLang "id"
        ⟨[⟨["title"], [("data-i18n", "hero_en")]⟩,
          ⟨["title", "d-none"], [("data-i18n", "hero_id")]⟩,
          ⟨["lang-option", "active"], [("data-lang", "en")]⟩,
          ⟨["lang-option"], [("data-lang", "id")]⟩], "en", some "id", []⟩)).elements =
        (toggleLang "id"
          ⟨[⟨["title"], [("data-i18n", "hero_en")]⟩,
            ⟨["title", "d-none"], [("data-i18n", "hero_id")]⟩,
            ⟨["lang-option", "active"], [("data-lang", "en")]⟩,
            ⟨["lang-option"], [("data-lang", "id")]⟩], "en", some "id", []⟩).elements :=
  ⟨by decide,
    (toggleLang_twice "id"
      ⟨[⟨["title"], [("data-i18n", "hero_en")]⟩,
        ⟨["title", "d-none"], [("data-i18n", "hero_id")]⟩,
        ⟨["lang-option", "active"], [("data-lang", "en")]⟩,
        ⟨["lang-option"], [("data-lang", "id")]⟩], "en", some "id", []⟩).2 (by decide)⟩

/-- C18 (counterexample): on a page where no language is stored, toggleLang with id stores
nothing, so the preference read back afterwards is still the default en. -/
theorem toggleLang_does_not_persist :
    (toggleLang "id" ⟨[], "en", none, []⟩).nk_lang = none ∧
      currentLang (toggleLang "id" ⟨[], "en", none, []⟩).nk_lang = "en" ∧
      (toggleLang "id" ⟨[], "en", some "en", []⟩).nk_lang ≠ some "id" := by
  decide

/-- C18 (amended): for a language argument that keeps the selector text intact,
toggleLang(lang) sets the language attribute of the document to lang, dispatches one
languageChanged event that carries lang, and leaves the stored preference as it was; a click
on a language option stores lang first and then does the same, so that the stored
preference is lang afterwards. -/
theorem toggleLang_effects (lang : String) (_hsafe : selectorSafe lang = true) (page : Page) :
    ((toggleLang lang page).documentLang = lang ∧
      (toggleLang lang page).dispatched = page.dispatched ++ [("languageChanged", lang)] ∧
      (toggleLang lang page).nk_lang = page.nk_lang) ∧
    ((langOptionClick lang page).nk_lang = some lang ∧
      (langOptionClick lang page).documentLang = lang ∧
      (langOptionClick lang page).dispatched =
        page.dispatched ++ [("languageChanged", lang)] ∧
      (langOptionClick lang page).elements = (toggleLang lang page).elements) :=
  ⟨⟨rfl, rfl, rfl⟩, rfl, rfl, rfl, rfl⟩

/-- Witness of C18 (amended): a click on the option of id on a page that stores en. -/
theorem toggleLang_effects_witness :
    selectorSafe "id" = true ∧
      (langOptionClick "id" ⟨[], "en", some "en", []⟩).nk_lang = some "id" ∧
      (toggleLang "id" ⟨[], "en", some "en", []⟩).nk_lang = some "en" :=
  ⟨by decide,
    (toggleLang_effects "id" (by decide) ⟨[], "en", some "en", []⟩).2.1,
    (toggleLang_effects "id" (by decide) ⟨[], "en", some "en", []⟩).1.2.2⟩

/-! ## Theorems: job detail modal and notification texts -/

/-- C19: when the request of showJobDetail is answered with status 404 the only effects after
the request are the alert that the job was removed by the company, nothing is written to the
modal and the modal is not shown; when it is answered with another status outside 200 to 299
the error is logged, the alert Error loading job details is shown, nothing is written and
the modal is not shown; and the modal is shown only for a response whose status is between
200 and 299. -/
theorem showJobDetail_by_status (format : JSValue → String) (window : Window)
    (nk_lang : Option String) (page : ModalElements) (jobId : JSValue) :
    (∀ body, showJobDetail format window nk_lang page (.response 404 body) jobId =
      { effects := [.fetch "GET" ("/job/" ++ templateString jobId),
          .alert "Pekerjaan terkait telah dihapus oleh perusahaan."]
        jobDetailTitle := none, jobDetailBody := none, applyButtonContainer := none,
        translated := none, modalShown := false }) ∧
    (∀ status body, status ≠ 404 → ¬ (200 ≤ status ∧ status ≤ 299) →
      showJobDetail format window nk_lang page (.response status body) jobId =
        { effects := [.fetch "GET" ("/job/" ++ templateString jobId),
            .consoleError "Error loading job details:", .alert "Error loading job details"]
          jobDetailTitle := none, jobDetailBody := none, applyButtonContainer := none,
          translated := none, modalShown := false }) ∧
    (∀ outcome, (showJobDetail format window nk_lang page outcome jobId).modalShown = true →
      ∃ status job, outcome = .response status (some job) ∧ 200 ≤ status ∧ status ≤ 299) := by
  refine ⟨?_, ?_, ?_⟩
  · intro body
    simp [showJobDetail]
  · intro status body h404 hok
    simp [showJobDetail, h404, hok]
  · intro outcome hshown
    cases outcome with
    | transportError => simp [showJobDetail] at hshown
    | response status body =>
      by_cases h404 : status = 404
      · simp [showJobDetail, h404] at hshown
      · by_cases hok : 200 ≤ status ∧ status ≤ 299
        · cases body with
          | none => simp [showJobDetail, h404, hok] at hshown
          | some job => exact ⟨status, job, rfl, hok.1, hok.2⟩
        · simp [showJobDetail, h404, hok] at hshown

/-- Witness of C19: the job 12 answered with status 500. -/
theorem showJobDetail_by_status_witness :
    ((500 : Nat) ≠ 404 ∧ ¬ (200 ≤ 500 ∧ 500 ≤ 299)) ∧
      showJobDetail rupiahFormat ⟨some "applicant", .bool true⟩ (some "id")
          ⟨true, true, true, true⟩ (.response 500 none) (.number (.int 12)) =
        { effects := [.fetch "GET" "/job/12", .consoleError "Error loading job details:",
            .alert "Error loading job details"]
          jobDetailTitle := none, jobDetailBody := none, applyButtonContainer := none,
          translated := none, modalShown := false } :=
  ⟨by decide,
    (showJobDetail_by_status rupiahFormat ⟨some "applicant", .bool true⟩ (some "id")
      ⟨true, true, true, true⟩ (.number (.int 12))).2.1 500 none (by decide) (by decide)⟩

/-- C20: for a notification whose title is none of the four known titles and whose message
matches none of the patterns for an application status, a posted job and a removed job, both
title spans hold the title as it is and both message spans hold the message as it is (the
fourth pattern is used only under the title New Application Received). -/
theorem getTranslatedNotificationHtml_unmatched (toLowerCase : String → String)
    (notification : Notification)
    (ht1 : notification.title ≠ "Application Status Updated")
    (ht2 : notification.title ≠ "New Job Posted")
    (ht3 : notification.title ≠ "Job Posting Removed")
    (ht4 : notification.title ≠ "New Application Received")
    (hm1 : regexMatch applicationStatusPattern notification.message.toList = none)
    (hm2 : regexMatch jobPostedPattern notification.message.toList = none)
    (hm3 : regexMatch jobRemovedPattern notification.message.toList = none) :
    getTranslatedNotificationHtml toLowerCase notification =
      ("<span data-i18n=\"notif_title_en\">" ++ notification.title ++
          "</span><span data-i18n=\"notif_title_id\" class=\"d-none\">" ++
          notification.title ++ "</span>",
        "<span data-i18n=\"notif_msg_en\">" ++ notification.message ++
          "</span><span data-i18n=\"notif_msg_id\" class=\"d-none\">" ++
          notification.message ++ "</span>") := by
  simp only [getTranslatedNotificationHtml, ht1, ht2, ht3, ht4, hm1, hm2, hm3, if_false]
  split <;> rfl

/-- Witness of C20: a notification with the title Welcome and the message Thanks for joining. -/
theorem getTranslatedNotificationHtml_unmatched_witness :
    regexMatch applicationStatusPattern "Thanks for joining".toList = none ∧
      getTranslatedNotificationHtml String.toLower
          { id := 1, type := "welcome", related_id := .null, title := "Welcome",
            message := "Thanks for joining", is_read := false, created_at := "" } =
        ("<span data-i18n=\"notif_title_en\">Welcome</span><span data-i18n=\"notif_title_id\" class=\"d-none\">Welcome</span>",
          "<span data-i18n=\"notif_msg_en\">Thanks for joining</span><span data-i18n=\"notif_msg_id\" class=\"d-none\">Thanks for joining</span>") :=
  ⟨by decide,
    getTranslatedNotificationHtml_unmatched String.toLower
      { id := 1, type := "welcome", related_id := .null, title := "Welcome",
        message := "Thanks for joining", is_read := false, created_at := "" }
      (by decide) (by decide) (by decide) (by decide) (by decide) (by decide) (by decide)⟩

/-! ## Theorems: loading, click round trip, status texts, modal translation -/

/-- C21: when the request of loadNotifications fails in transport or is answered with a
non-success response, updateNotificationUI is not called, the surface (badge and list) is
exactly what it was, and the only effects are the request and one console.error: no alert
and nothing else reaches the user. -/
theorem loadNotifications_failure (renderList : List Notification → String)
    (outcome : NotificationsOutcome) (surface : Surface)
    (hfail : outcome = .transportError ∨ ∃ body, outcome = .response false body) :
    loadNotifications renderList outcome surface =
        { effects := [.fetch "GET" "/notifications",
            .consoleError "Error loading notifications:"]
          rendered := none
          surface := surface } ∧
      (loadNotifications renderList outcome surface).surface = surface ∧
      (loadNotifications renderList outcome surface).rendered = none ∧
      (∀ msg, Effect.alert msg ∉ (loadNotifications renderList outcome surface).effects) := by
  have key : loadNotifications renderList outcome surface =
      { effects := [.fetch "GET" "/notifications",
          .consoleError "Error loading notifications:"]
        rendered := none
        surface := surface } := by
    rcases hfail with h | ⟨body, h⟩
    · rw [h]; rfl
    · rw [h]; rfl
  rw [key]
  simp

/-- Witness of C21: a response with status flag false on a surface that shows 3 unread. -/
theorem loadNotifications_failure_witness :
    (NotificationsOutcome.response false none = .transportError ∨
        ∃ body, NotificationsOutcome.response false none = .response false body) ∧
      (loadNotifications (fun _ => "") (.response false none)
        ⟨some "<li>old</li>", some ⟨"3", "block"⟩⟩).surface =
        ⟨some "<li>old</li>", some ⟨"3", "block"⟩⟩ :=
  ⟨Or.inr ⟨none, rfl⟩,
    (loadNotifications_failure (fun _ => "") (.response false none)
      ⟨some "<li>old</li>", some ⟨"3", "block"⟩⟩ (Or.inr ⟨none, rfl⟩)).2.1⟩

/-- C23 (counterexample): the status notification for a job whose title is the text A new job
'Chef' has been posted by Warung matches the pattern for an application status with the status
accepted, yet its message also matches the later pattern for a posted job, whose texts replace
the status texts: the Indonesian message rendered is not Lamaran Anda untuk ... telah
diterima. -/
theorem getTranslatedNotificationHtml_later_pattern_wins :
    regexMatch applicationStatusPattern
        "Your application for A new job 'Chef' has been posted by Warung has been accepted".toList =
      some ["A new job 'Chef' has been posted by Warung".toList, "accepted".toList] ∧
    asciiLowerCase "accepted" = "accepted" ∧
    (getTranslatedNotificationHtml asciiLowerCase
        ⟨1, "application_status", .number (.int 7), "Application Status Updated",
          "Your application for A new job 'Chef' has been posted by Warung has been accepted",
          false, ""⟩).2 =
      "<span data-i18n=\"notif_msg_en\">A new job 'Chef' has been posted by Warung has been accepted</span><span data-i18n=\"notif_msg_id\" class=\"d-none\">Pekerjaan baru 'Chef' telah diposting oleh Warung has been accepted</span>" :=
  ⟨by decide, by decide, rfl⟩

/-- C23 (amended): for a notification whose message matches the pattern for an application
status with the captured texts job and status, and matches none of the later patterns that
would replace its texts (posted job, removed job, and applied for under the title New
Application Received), the Indonesian message is Lamaran Anda untuk job telah diterima exactly
when the lower-cased status is accepted, and ends in ditolak for every other status; the
English message is rebuilt with the lower-cased status. -/
theorem getTranslatedNotificationHtml_application_status (toLowerCase : String → String)
    (notification : Notification) (job status : List Char)
    (hm1 : regexMatch applicationStatusPattern notification.message.toList =
      some [job, status])
    (hm2 : regexMatch jobPostedPattern notification.message.toList = none)
    (hm3 : regexMatch jobRemovedPattern notification.message.toList = none)
    (hm4 : regexMatch appliedForPattern notification.message.toList = none ∨
      notification.title ≠ "New Application Received") :
    (getTranslatedNotificationHtml toLowerCase notification).2 =
      "<span data-i18n=\"notif_msg_en\">" ++
        ("Your application for " ++ String.mk job ++ " has been " ++
          toLowerCase (String.mk status)) ++
        "</span><span data-i18n=\"notif_msg_id\" class=\"d-none\">" ++
        ("Lamaran Anda untuk " ++ String.mk job ++ " telah " ++
          (if toLowerCase (String.mk status) = "accepted" then "diterima" else "ditolak")) ++
        "</span>" := by
  rcases hm4 with hm4 | hm4
  · simp only [getTranslatedNotificationHtml, hm1, hm2, hm3, hm4]
  · simp only [getTranslatedNotificationHtml, hm1, hm2, hm3, hm4, if_false]
    split <;> rfl

/-- The two visibility callbacks are the same function. -/
theorem translateModalContentElement_eq (lang : String) (el : Element) :
    translateModalContentElement lang el = toggleLangElement lang el := rfl

/-- The visibility callback leaves every element as it is for a language other than en, id. -/
theorem toggleLangElement_other_lang (lang : String) (h1 : lang ≠ "en") (h2 : lang ≠ "id")
    (el : Element) : toggleLangElement lang el = el := by
  unfold toggleLangElement
  split
  · rfl
  · simp [h1, h2]

/-- C24: on the elements inside the modal translateModalContent gives exactly the class lists
that the visibility step of toggleLang gives, also as a part of the document; applying either
after the other changes nothing more; and for a language other than en and id both leave
every element as it is. -/
theorem translateModalContent_eq_toggleLangVisibility (lang : String)
    (before inside after : List Element) :
    translateModalContent (some inside) lang = some (toggleLangVisibility lang inside) ∧
    toggleLangVisibility lang (before ++ inside ++ after) =
      toggleLangVisibility lang before ++ inside.map (translateModalContentElement lang) ++
        toggleLangVisibility lang after ∧
    translateModalContent (some (toggleLangVisibility lang inside)) lang =
      some (toggleLangVisibility lang inside) ∧
    toggleLangVisibility lang (inside.map (translateModalContentElement lang)) =
      inside.map (translateModalContentElement lang) ∧
    (lang ≠ "en" → lang ≠ "id" →
      translateModalContent (some inside) lang = some inside ∧
      toggleLangVisibility lang inside = inside) := by
  have hfun : translateModalContentElement lang = toggleLangElement lang :=
    funext (translateModalContentElement_eq lang)
  have hidem : (inside.map (toggleLangElement lang)).map (toggleLangElement lang) =
      inside.map (toggleLangElement lang) := by
    rw [List.map_map]
    apply List.map_congr_left
    intro el _
    exact toggleLangElement_idem lang el
  refine ⟨?_, ?_, ?_, ?_, ?_⟩
  · simp [translateModalContent, toggleLangVisibility, hfun]
  · simp [toggleLangVisibility, hfun]
  · simp only [translateModalContent, toggleLangVisibility, hfun, hidem]
  · simp only [toggleLangVisibility, hfun, hidem]
  · intro h1 h2
    have hid : inside.map (toggleLangElement lang) = inside := by
      conv_rhs => rw [← List.map_id inside]
      apply List.map_congr_left
      intro el _
      exact toggleLangElement_other_lang lang h1 h2 el
    simp [translateModalContent, toggleLangVisibility, hfun, hid]

/-- Witness of C24: the language fr on a modal with an English and an Indonesian label. -/
theorem translateModalContent_eq_toggleLangVisibility_witness :
    ("fr" ≠ "en" ∧ "fr" ≠ "id") ∧
      translateModalContent
          (some [⟨[], [("data-i18n", "modal_salary_en")]⟩,
            ⟨["hidden"], [("data-i18n", "modal_salary_id")]⟩]) "fr" =
        some [⟨[], [("data-i18n", "modal_salary_en")]⟩,
          ⟨["hidden"], [("data-i18n", "modal_salary_id")]⟩] :=
  ⟨by decide,
    ((translateModalContent_eq_toggleLangVisibility "fr" []
      [⟨[], [("data-i18n", "modal_salary_en")]⟩,
        ⟨["hidden"], [("data-i18n", "modal_salary_id")]⟩] []).2.2.2.2
      (by decide) (by decide)).1⟩

/-- Witness of C23 (amended): the statuses Accepted and Pending under the lower-casing of ASCII letters. -/
theorem getTranslatedNotificationHtml_application_status_witness :
    regexMatch applicationStatusPattern "Your application for Cook has been Pending".toList =
        some ["Cook".toList, "Pending".toList] ∧
      (getTranslatedNotificationHtml asciiLowerCase
          { id := 1, type := "application_status", related_id := .number (.int 7),
            title := "Application Status Updated",
            message := "Your application for Cook has been Pending", is_read := false,
            created_at := "" }).2 =
        "<span data-i18n=\"notif_msg_en\">Your application for Cook has been pending</span><span data-i18n=\"notif_msg_id\" class=\"d-none\">Lamaran Anda untuk Cook telah ditolak</span>" ∧
      (getTranslatedNotificationHtml asciiLowerCase
          { id := 1, type := "application_status", related_id := .number (.int 7),
            title := "Application Status Updated",
            message := "Your application for Cook has been Accepted", is_read := false,
            created_at := "" }).2 =
        "<span data-i18n=\"notif_msg_en\">Your application for Cook has been accepted</span><span data-i18n=\"notif_msg_id\" class=\"d-none\">Lamaran Anda untuk Cook telah diterima</span>" :=
  ⟨by decide,
    getTranslatedNotificationHtml_application_status asciiLowerCase
      { id := 1, type := "application_status", related_id := .number (.int 7),
        title := "Application Status Updated",
        message := "Your application for Cook has been Pending", is_read := false,
        created_at := "" } "Cook".toList "Pending".toList
      (by decide) (by decide) (by decide) (Or.inl (by decide)),
    getTranslatedNotificationHtml_application_status asciiLowerCase
      { id := 1, type := "application_status", related_id := .number (.int 7),
        title := "Application Status Updated",
        message := "Your application for Cook has been Accepted", is_read := false,
        created_at := "" } "Cook".toList "Accepted".toList
      (by decide) (by decide) (by decide) (Or.inl (by decide))⟩

/-- A decimal digit of a number is one of the ten digit characters, and reads back. -/
theorem digitChar_decimal (k : Nat) (hk : k < 10) :
    Nat.digitChar k ∈ decimalDigitChars ∧ digitValue (Nat.digitChar k) = k := by
  interval_cases k <;> decide

/-- The digits that `Nat.toDigitsCore` writes in front of `ds` are decimal digit characters
that read back as the number. -/
theorem toDigitsCore_decimal (fuel : Nat) :
    ∀ (n : Nat) (ds : List Char), n < fuel → (∀ c ∈ ds, c ∈ decimalDigitChars) →
      (∀ c ∈ Nat.toDigitsCore 10 fuel n ds, c ∈ decimalDigitChars) ∧
      Nat.toDigitsCore 10 fuel n ds ≠ [] ∧
      decimalValue 0 (Nat.toDigitsCore 10 fuel n ds) = decimalValue n ds := by
  induction fuel with
  | zero => intro n ds h; omega
  | succ fuel ih =>
    intro n ds hn hds
    have hd := digitChar_decimal (n % 10) (Nat.mod_lt _ (by decide))
    have hall : ∀ c ∈ Nat.digitChar (n % 10) :: ds, c ∈ decimalDigitChars := by
      intro c hc
      rcases List.mem_cons.mp hc with h | h
      · rw [h]; exact hd.1
      · exact hds c h
    unfold Nat.toDigitsCore
    by_cases h0 : n / 10 = 0
    · simp only [h0, if_true]
      refine ⟨hall, List.cons_ne_nil _ _, ?_⟩
      have hlt : n < 10 := by omega
      simp only [decimalValue, List.foldl_cons, hd.2]
      congr 1
      omega
    · simp only [h0, if_false]
      have hlt : n / 10 < fuel := by omega
      obtain ⟨h1, h2, h3⟩ := ih (n / 10) (Nat.digitChar (n % 10) :: ds) hlt hall
      refine ⟨h1, h2, ?_⟩
      rw [h3]
      simp only [decimalValue, List.foldl_cons, hd.2]
      congr 1
      omega

/-- The decimal text of a natural number: digit characters, not empty, reading back. -/
theorem toDigits_decimal (n : Nat) :
    (∀ c ∈ Nat.toDigits 10 n, c ∈ decimalDigitChars) ∧ Nat.toDigits 10 n ≠ [] ∧
      decimalValue 0 (Nat.toDigits 10 n) = n := by
  have h := toDigitsCore_decimal (n + 1) n [] (by omega) (by simp)
  exact ⟨h.1, h.2.1, by rw [Nat.toDigits, h.2.2]; rfl⟩

/-- A decimal digit character is no white space, no sign, no letter x, and a digit of radix 10. -/
theorem decimalDigitChars_facts :
    ∀ c ∈ decimalDigitChars, isStrWhiteSpaceChar c = false ∧ c ≠ '+' ∧ c ≠ '-' ∧ c ≠ 'x' ∧
      c ≠ 'X' ∧ isRadixDigit 10 c = true := by
  decide

/-- A run of decimal digit characters is taken whole by `takeWhile`. -/
theorem takeWhile_decimal (ds : List Char) (h : ∀ c ∈ ds, c ∈ decimalDigitChars) :
    ds.takeWhile (isRadixDigit 10) = ds := by
  induction ds with
  | nil => rfl
  | cons c rest ih =>
    have hc := (decimalDigitChars_facts c (h c (List.mem_cons_self _ _))).2.2.2.2.2
    rw [List.takeWhile_cons, hc]
    simp only [if_true]
    rw [ih (fun d hd => h d (List.mem_cons_of_mem _ hd))]

/-- The body of `parseInt` after the sign: a non-empty run of decimal digit characters has
radix 10, no hexadecimal mark, and is read whole. -/
theorem parseInt_unsigned (ds : List Char) (h : ∀ c ∈ ds, c ∈ decimalDigitChars)
    (hne : ds ≠ []) :
    parseInt (String.mk ds) = .int (decimalValue 0 ds) ∧
      parseInt (String.mk ('-' :: ds)) = .int (-(decimalValue 0 ds : Int)) := by
  cases ds with
  | nil => exact absurd rfl hne
  | cons c rest =>
    obtain ⟨hw, hplus, hminus, -, -, -⟩ := decimalDigitChars_facts c (h c (List.mem_cons_self _ _))
    have htake := takeWhile_decimal (c :: rest) h
    have hradix : (match c :: rest with
        | '0' :: 'x' :: _ => 16
        | '0' :: 'X' :: _ => 16
        | _ => (10 : Nat)) = 10 := by
      cases rest with
      | nil => split <;> simp_all
      | cons c2 rest2 =>
        obtain ⟨-, -, -, hx, hX, -⟩ :=
          decimalDigitChars_facts c2 (h c2 (List.mem_cons_of_mem _ (List.mem_cons_self _ _)))
        split <;> simp_all
    have hbody : (match c :: rest with
        | '0' :: 'x' :: r => r
        | '0' :: 'X' :: r => r
        | _ => c :: rest) = c :: rest := by
      cases rest with
      | nil => split <;> simp_all
      | cons c2 rest2 =>
        obtain ⟨-, -, -, hx, hX, -⟩ :=
          decimalDigitChars_facts c2 (h c2 (List.mem_cons_of_mem _ (List.mem_cons_self _ _)))
        split <;> simp_all
    have hunsigned : (match c :: rest with
        | '+' :: r => r
        | '-' :: r => r
        | _ => c :: rest) = c :: rest := by
      split <;> simp_all
    constructor
    · simp only [parseInt, String.toList, dropLeading, hw, Bool.false_eq_true, if_false,
        hunsigned, hradix, hbody, htake, List.head?_cons, Option.some.injEq, hminus,
        decimalValue]
      simp
    · have hwm : isStrWhiteSpaceChar '-' = false := by decide
      simp only [parseInt, String.toList, dropLeading, hwm, Bool.false_eq_true, if_false,
        hradix, hbody, htake, List.head?_cons, decimalValue]
      simp

/-- The decimal text of an integer is read back by `parseInt` as that integer. -/
theorem parseInt_toString (i : Int) : parseInt (toString i) = .int i := by
  cases i with
  | ofNat m =>
    obtain ⟨hall, hne, hval⟩ := toDigits_decimal m
    have h := (parseInt_unsigned (Nat.toDigits 10 m) hall hne).1
    rw [hval] at h
    exact h
  | negSucc m =>
    obtain ⟨hall, hne, hval⟩ := toDigits_decimal (m + 1)
    have h := (parseInt_unsigned (Nat.toDigits 10 (m + 1)) hall hne).2
    rw [hval] at h
    exact h

/-- Below 10^21 in magnitude the text of an integer is its decimal digits. -/
theorem integerText_decimal (i : Int) (hi : i.natAbs < 10 ^ 21) :
    integerText i = toString i := by
  unfold integerText
  rw [if_pos hi]

/-- The attributes that the click listener reads from a rendered item. -/
theorem renderedItem_attributes (notification : Notification) :
    "notification-item" ∈ (renderedItem notification).classList ∧
      (renderedItem notification).getAttribute "data-notification-id" =
        some (integerText notification.id) ∧
      (renderedItem notification).getAttribute "data-related-id" =
        some (valueText notification.related_id) ∧
      (renderedItem notification).getAttribute "data-notification-type" =
        some notification.type := by
  refine ⟨?_, ?_, ?_, ?_⟩
  · unfold renderedItem
    split <;> simp
  · simp [renderedItem, Element.getAttribute, List.find?]
  · simp [renderedItem, Element.getAttribute, List.find?]
  · simp [renderedItem, Element.getAttribute, List.find?]

/-- C22 (counterexample): the integer 10^21, which the platform holds exactly, is rendered in
the exponent form 1e+21, of which parseInt reads the digit 1.  For an applicant, the click on
the rendered item of a job_posted notification whose related_id is 10^21 opens the job detail
of job 1, where handleNotificationClick opens that of job 10^21 for the notification itself;
for a company, the click on the rendered item of an application_received notification with
that related_id goes to /company/application/1. -/
theorem notificationListClick_renderedItem_exponent_form :
    valueText (.number (.int 1000000000000000000000)) = "1e+21" ∧
      parseInt (valueText (.number (.int 1000000000000000000000))) = .int 1 ∧
      notificationListClick "" ⟨some "applicant", .bool true⟩ .transportError
          [renderedItem ⟨8, "job_posted", .number (.int 1000000000000000000000),
            "New Job Posted", "A new job", false, ""⟩] =
        .ok [.fetch "POST" "/notifications/read/8", .showJobDetail (.number (.int 1))] ∧
      handleNotificationClick ⟨some "applicant", .bool true⟩ .transportError
          (Notification.toClicked ⟨8, "job_posted", .number (.int 1000000000000000000000),
            "New Job Posted", "A new job", false, ""⟩) =
        [.showJobDetail (.number (.int 1000000000000000000000))] ∧
      notificationListClick "" ⟨some "company", .bool true⟩ .transportError
          [renderedItem ⟨8, "application_received", .number (.int 1000000000000000000000),
            "New Application Received", "A new application", false, ""⟩] =
        .ok [.fetch "POST" "/notifications/read/8",
          .setLocationHref "/company/application/1"] := by
  refine ⟨by decide, by decide, rfl, by decide, rfl⟩

/-- C22 (amended): for a notification whose related_id is null or an integer of magnitude below
10^21 (and whose type stands for itself in an attribute), a click on its rendered item, or on
an element inside it, issues the mark-read request and then routes exactly as
handleNotificationClick routes the fetched notification itself; a null related_id is rendered
as the text null, parsed to NaN and routed as a no-op, and the rendered text of an integer
related_id of magnitude below 10^21 is parsed back to the same integer. -/
theorem notificationListClick_renderedItem (scope : String) (window : Window)
    (lookup : LookupOutcome) (inner outer : List Element) (notification : Notification)
    (hinner : ∀ el ∈ inner, "notification-item" ∉ el.classList)
    (_hsafe : attributeSafe notification.type = true)
    (hid : notification.related_id = .null ∨
      ∃ i : Int, i.natAbs < 10 ^ 21 ∧ notification.related_id = .number (.int i)) :
    notificationListClick scope window lookup (inner ++ renderedItem notification :: outer) =
        .ok (.fetch "POST" ("/notifications/read/" ++ integerText notification.id) ::
          handleNotificationClick window lookup notification.toClicked) ∧
      (notification.related_id = .null →
        valueText notification.related_id = "null" ∧
        parseInt (valueText notification.related_id) = .nan ∧
        handleNotificationClick window lookup notification.toClicked =
          [.consoleLog "Notifikasi tanpa ID terkait/Job dihapus, tidak ada navigasi."]) ∧
      (∀ i : Int, i.natAbs < 10 ^ 21 → notification.related_id = .number (.int i) →
        parseInt (valueText notification.related_id) = .int i) := by
  obtain ⟨hitem, hnid, hrid, htype⟩ := renderedItem_attributes notification
  have hfind := findNotificationItem_append inner (renderedItem notification) outer hinner hitem
  have hnull : parseInt "null" = .nan := by decide
  have htext : ∀ i : Int, i.natAbs < 10 ^ 21 → notification.related_id = .number (.int i) →
      valueText notification.related_id = toString i := by
    intro i hi h
    rw [h]
    exact integerText_decimal i hi
  refine ⟨?_, ?_, ?_⟩
  · rcases hid with h | ⟨i, hi, h⟩
    · have hne : valueText notification.related_id ≠ "" := by
        rw [h]; decide
      have hparse : parseInt (valueText notification.related_id) = .nan := by
        rw [h]; exact hnull
      simp only [notificationListClick, hfind, hnid, hrid, htype, markNotificationRead,
        Option.getD_some, hne, ne_eq, not_false_eq_true, if_true, hparse]
      simp [handleNotificationClick, Notification.toClicked, h, isNaN]
    · have hparse : parseInt (valueText notification.related_id) = .int i := by
        rw [htext i hi h]; exact parseInt_toString i
      have hne : valueText notification.related_id ≠ "" := by
        intro hempty
        rw [hempty] at hparse
        have : parseInt "" = .nan := by decide
        rw [this] at hparse
        exact JSNumber.noConfusion hparse
      simp only [notificationListClick, hfind, hnid, hrid, htype, markNotificationRead,
        Option.getD_some, hne, ne_eq, not_false_eq_true, if_true, hparse]
      simp [Notification.toClicked, h]
  · intro h
    refine ⟨by rw [h]; rfl, by rw [h]; exact hnull, ?_⟩
    simp [handleNotificationClick, Notification.toClicked, h]
  · intro i hi h
    rw [htext i hi h]
    exact parseInt_toString i

/-- Witness of C22 (amended): notification 8 of type job_posted with related_id 42, clicked on
its heading by an applicant, and the same notification with related_id null. -/
theorem notificationListClick_renderedItem_witness :
    (attributeSafe "job_posted" = true ∧
        (JSValue.number (.int 42) = .null ∨
          ∃ i : Int, i.natAbs < 10 ^ 21 ∧ JSValue.number (.int 42) = .number (.int i))) ∧
      notificationListClick "" ⟨some "applicant", .bool true⟩ .transportError
          ([⟨["mb-1"], []⟩] ++
            [renderedItem ⟨8, "job_posted", .number (.int 42), "New Job Posted", "A new job",
              false, ""⟩]) =
        .ok [.fetch "POST" "/notifications/read/8", .showJobDetail (.number (.int 42))] ∧
      notificationListClick "" ⟨some "applicant", .bool true⟩ .transportError
          ([⟨["mb-1"], []⟩] ++
            [renderedItem ⟨8, "job_posted", .null, "New Job Posted", "A new job", false,
              ""⟩]) =
        .ok [.fetch "POST" "/notifications/read/8",
          .consoleLog "Notifikasi tanpa ID terkait/Job dihapus, tidak ada navigasi."] :=
  ⟨⟨by decide, Or.inr ⟨42, by decide, rfl⟩⟩,
    ((notificationListClick_renderedItem "" ⟨some "applicant", .bool true⟩ .transportError
      [⟨["mb-1"], []⟩] []
      ⟨8, "job_posted", .number (.int 42), "New Job Posted", "A new job", false, ""⟩
      (by decide) (by decide) (Or.inr ⟨42, by decide, rfl⟩)).1).trans rfl,
    ((notificationListClick_renderedItem "" ⟨some "applicant", .bool true⟩ .transportError
      [⟨["mb-1"], []⟩] []
      ⟨8, "job_posted", .null, "New Job Posted", "A new job", false, ""⟩
      (by decide) (by decide) (Or.inl rfl)).1).trans rfl⟩

end Nemukerja
